import Mathlib

/-!
Shallow embedding of the MobilityTwin traffic-simulation engine
(`RealTrafficSimulation` and its helpers from the server sources, the
`runTrafficSimulation` orchestrator, and the `densify` polyline utility),
together with proofs settling the specification claims about them.

JavaScript numbers are idealised as real numbers; all state mutation is
modelled by explicit functional state passing; `Math.random()` is modelled
by an explicit stream `ℕ → ℝ` of draws together with a cursor; the
unbounded retry loops of the source are modelled with explicit fuel, an
exhausted fuel (`none`) standing for a computation that never produces a
result.
-/

namespace MobilityTwin

open Real

noncomputable section

open Classical in
/-- JavaScript `Math.atan2 y x` (result in radians, quadrant-correct;
`Math.atan2 0 0 = 0`).  Negative zero does not exist in `ℝ`, so the
`x = -0` corner of the JS semantics is not distinguished. -/
def jsAtan2 (y x : ℝ) : ℝ :=
  if 0 < x then arctan (y / x)
  else if x < 0 then (if 0 ≤ y then arctan (y / x) + π else arctan (y / x) - π)
  else if 0 < y then π / 2
  else if y < 0 then -(π / 2)
  else 0

/-- JavaScript `Math.round` (half-up, i.e. `⌊x + 1/2⌋`). -/
def jsRound (x : ℝ) : ℤ := ⌊x + 1/2⌋

/-- `Math.floor (u * n)` as a list index (`array[Math.floor(Math.random()*array.length)]`). -/
def jsFloorIdx (u : ℝ) (n : ℕ) : ℕ := (⌊u * (n : ℝ)⌋).toNat

/-- `x.toFixed(1)` read back as a number: rounding to one decimal. -/
def roundTo1 (x : ℝ) : ℝ := ((jsRound (x * 10) : ℤ) : ℝ) / 10

/-- `q.toFixed(6)` as used for the facility dedup key: the value scaled to
an integer number of micro-degrees. -/
def toFixed6Key (q : ℝ) : ℤ := jsRound (q * 1000000)

/-- WGS84 coordinate, `(lng, lat)` in degrees, as used throughout the source. -/
structure Coord where
  lng : ℝ
  lat : ℝ

/-- The `a` intermediate of `haversineDistance` (`sin²(Δφ/2) + cos φ₁ cos φ₂ sin²(Δλ/2)`). -/
def haversineA (c1 c2 : Coord) : ℝ :=
  sin ((c2.lat - c1.lat) * π / 180 / 2) ^ 2 +
    cos (c1.lat * π / 180) * cos (c2.lat * π / 180) *
      sin ((c2.lng - c1.lng) * π / 180 / 2) ^ 2

/-- `haversineDistance` of `RealTrafficSimulation` (meters):
`R * 2 * atan2(√a, √(1-a))` with `R = 6371000`. -/
def haversineDistance (c1 c2 : Coord) : ℝ :=
  6371000 * 2 * jsAtan2 (Real.sqrt (haversineA c1 c2)) (Real.sqrt (1 - haversineA c1 c2))

/-- `calculateRoadLength` of `RealTrafficSimulation`: sum of consecutive
haversine distances along a geometry (meters). -/
def calculateRoadLength : List Coord → ℝ
  | a :: b :: rest => haversineDistance a b + calculateRoadLength (b :: rest)
  | _ => 0

/- ### Basic facts about the geometry layer -/

theorem jsAtan2_sin_cos {θ : ℝ} (h0 : 0 ≤ θ) (h2 : θ ≤ π / 2) :
    jsAtan2 (sin θ) (cos θ) = θ := by
  rcases eq_or_lt_of_le h2 with he | hlt
  · subst he
    simp [jsAtan2, Real.cos_pi_div_two, Real.sin_pi_div_two, Real.pi_pos]
  · have hcos : 0 < cos θ := by
      apply Real.cos_pos_of_mem_Ioo
      constructor
      · linarith [Real.pi_pos]
      · exact hlt
    rw [jsAtan2, if_pos hcos, ← Real.tan_eq_sin_div_cos]
    exact Real.arctan_tan (by linarith [Real.pi_pos]) hlt

theorem arctan_nonneg_of_nonneg {x : ℝ} (hx : 0 ≤ x) : 0 ≤ arctan x := by
  have := Real.arctan_strictMono.monotone hx
  rwa [Real.arctan_zero] at this

theorem arctan_pos_of_pos {x : ℝ} (hx : 0 < x) : 0 < arctan x := by
  have := Real.arctan_strictMono hx
  rwa [Real.arctan_zero] at this

theorem jsAtan2_nonneg {y x : ℝ} (hy : 0 ≤ y) (hx : 0 ≤ x) : 0 ≤ jsAtan2 y x := by
  rcases lt_or_eq_of_le hx with hx' | hx'
  · rw [jsAtan2, if_pos hx']
    exact arctan_nonneg_of_nonneg (div_nonneg hy hx)
  · rcases lt_or_eq_of_le hy with hy' | hy'
    · rw [jsAtan2, if_neg (by linarith), if_neg (by linarith), if_pos hy']
      linarith [Real.pi_pos]
    · rw [jsAtan2, if_neg (by linarith), if_neg (by linarith), if_neg (by linarith),
        if_neg (by linarith)]

theorem haversineDistance_self (c : Coord) : haversineDistance c c = 0 := by
  have hA : haversineA c c = 0 := by
    simp [haversineA]
  simp [haversineDistance, hA, jsAtan2, Real.arctan_zero]

theorem haversineDistance_comm (c1 c2 : Coord) :
    haversineDistance c1 c2 = haversineDistance c2 c1 := by
  have hA : haversineA c1 c2 = haversineA c2 c1 := by
    have h1 : (c1.lat - c2.lat) * π / 180 / 2 = -((c2.lat - c1.lat) * π / 180 / 2) := by ring
    have h2 : (c1.lng - c2.lng) * π / 180 / 2 = -((c2.lng - c1.lng) * π / 180 / 2) := by ring
    simp only [haversineA, h1, h2, Real.sin_neg, neg_sq]
    ring
  simp only [haversineDistance, hA]

/-- On the equator the haversine distance is exactly `R` times the
longitude difference in radians (for eastward differences of at most 180°). -/
theorem haversineDistance_equator {a b : ℝ} (h0 : 0 ≤ b - a) (h1 : b - a ≤ 180) :
    haversineDistance ⟨a, 0⟩ ⟨b, 0⟩ = 6371000 * ((b - a) * π / 180) := by
  have hπ := Real.pi_pos
  set Δ : ℝ := (b - a) * π / 180 with hΔ
  have hΔ0 : 0 ≤ Δ := by
    apply div_nonneg (mul_nonneg h0 hπ.le) (by norm_num)
  have hΔπ : Δ ≤ π := by
    rw [hΔ, div_le_iff₀ (by norm_num : (0:ℝ) < 180)]
    nlinarith
  have hhalf0 : 0 ≤ Δ / 2 := by linarith
  have hhalf2 : Δ / 2 ≤ π / 2 := by linarith
  have hsin : 0 ≤ sin (Δ / 2) := Real.sin_nonneg_of_nonneg_of_le_pi hhalf0 (by linarith)
  have hcos : 0 ≤ cos (Δ / 2) := by
    apply Real.cos_nonneg_of_mem_Icc
    constructor <;> [linarith; linarith]
  have hA : haversineA ⟨a, 0⟩ ⟨b, 0⟩ = sin (Δ / 2) ^ 2 := by
    simp only [haversineA]
    norm_num [hΔ]
  have hs1 : Real.sqrt (sin (Δ / 2) ^ 2) = sin (Δ / 2) := by
    rw [Real.sqrt_sq_eq_abs, abs_of_nonneg hsin]
  have hs2 : Real.sqrt (1 - sin (Δ / 2) ^ 2) = cos (Δ / 2) := by
    have h : 1 - sin (Δ / 2) ^ 2 = cos (Δ / 2) ^ 2 := by
      have := Real.sin_sq_add_cos_sq (Δ / 2)
      linarith
    rw [h, Real.sqrt_sq_eq_abs, abs_of_nonneg hcos]
  rw [haversineDistance, hA, hs1, hs2, jsAtan2_sin_cos hhalf0 hhalf2]
  ring

theorem haversineDistance_nonneg (c1 c2 : Coord) : 0 ≤ haversineDistance c1 c2 := by
  have h := jsAtan2_nonneg (Real.sqrt_nonneg (haversineA c1 c2))
    (Real.sqrt_nonneg (1 - haversineA c1 c2))
  rw [haversineDistance]
  positivity

/- ### Data model (`osm-network.ts`, `tomtom-traffic.ts`, `population-data.ts`,
`sumo-simulation.ts`) -/

/-- Tags of an OSM road; only the `highway` and `lanes` tags are consulted by
the engine. -/
structure RoadTags where
  highway : Option String
  lanes : Option String

/-- `OSMRoad` of `osm-network.ts`. -/
structure OSMRoad where
  id : String
  nodeIds : List Int
  tags : RoadTags
  geometry : List Coord

/-- `NetworkData` of `osm-network.ts` (nodes are only counted downstream, so
their ids suffice; the bbox is unused by the engine). -/
structure NetworkData where
  nodes : List Int
  roads : List OSMRoad

/-- `TrafficData.congestionLevel`. -/
inductive CongestionLevel
  | LOW
  | MEDIUM
  | HIGH
  | SEVERE
  deriving DecidableEq

/-- `TrafficFlow` of `tomtom-traffic.ts`. -/
structure TrafficFlow where
  roadName : String
  currentSpeed : ℝ
  freeFlowSpeed : ℝ
  confidence : ℝ
  coordinates : List Coord

/-- `TrafficIncident` (only the fields the engine could consult). -/
structure TrafficIncident where
  severity : ℝ
  delayInSeconds : ℝ

/-- `TrafficData` of `tomtom-traffic.ts`. -/
structure TrafficData where
  incidents : List TrafficIncident
  flows : List TrafficFlow
  averageDelay : ℝ
  congestionLevel : CongestionLevel

/-- `PopulationData` of `population-data.ts` (fields the engine reads). -/
structure PopulationData where
  totalPopulation : ℝ
  density : ℝ
  workingPopulation : ℝ
  estimatedVehicles : ℝ
  peakHourFactor : ℝ

/-- `SUMOEdge`.  `from`/`to` are renamed `fromNode`/`toNode` (`from` is a Lean
keyword). -/
structure SUMOEdge where
  id : String
  fromNode : String
  toNode : String
  lanes : ℤ
  speed : ℝ
  length : ℝ
  capacity : ℝ

/-- Vehicle ids.  The source builds the JavaScript strings `vehicle_${i}` and
`facility_trip_${i}`; those string families are injective in `i` and disjoint
from each other, which this inductive encoding captures, so id equality in the
model coincides with string equality in the source. -/
inductive VehicleId
  | vehicle (i : ℕ)
  | facilityTrip (i : ℕ)
  deriving DecidableEq

/-- `SUMOVehicle`.  The optional bookkeeping fields (`distanceTraveled`,
`currentEdgeProgress`, …) are always initialised by the generators, and
`updateVehicle` resets them to `0` when undefined, so they are modelled as
total fields.  `line` is the turf `LineString` built from `routeCoordinates`
and `lineLength` its turf length in kilometers. -/
structure SUMOVehicle where
  id : VehicleId
  route : List String
  departTime : ℝ
  arrivalTime : Option ℝ
  speed : ℝ
  emissions : ℝ
  routeProgress : ℝ
  routeCoordinates : List Coord
  distanceTraveled : ℝ
  currentEdgeProgress : ℝ
  totalRouteLength : ℝ
  line : List Coord
  lineLength : ℝ

/-- An entry of `constructionLogs`. -/
structure ConstructionLog where
  edgeId : String
  originalSpeed : ℝ
  reducedSpeed : ℝ

/-- The mutable state of a `RealTrafficSimulation` instance.  The `edgeMap`
and `edgesFromMap` indices of the source are derived views of `edges` (the
source mutates the shared edge objects; the model updates `edges` by id).
The route cache is keyed by the origin/destination pair, standing for the
source's `"origin->dest"` string key. -/
structure SimState where
  network : NetworkData
  trafficData : TrafficData
  populationData : PopulationData
  edges : List SUMOEdge
  vehicles : List SUMOVehicle
  simulationTime : ℕ
  constructionLogs : List ConstructionLog
  affectedEdgesSet : List String
  routeCache : List ((String × String) × List String)

/-- `getRoadCapacity` of `osm-network.ts` (vehicles/hour for one lane). -/
def getRoadCapacity (highway : String) : ℝ :=
  if highway = "motorway" then 2000
  else if highway = "trunk" then 1500
  else if highway = "primary" then 1200
  else if highway = "secondary" then 800
  else if highway = "tertiary" then 600
  else if highway = "residential" then 400
  else if highway = "unclassified" then 300
  else 300

/-- `getFreeFlowSpeed` of `osm-network.ts` (km/h). -/
def getFreeFlowSpeed (highway : String) : ℝ :=
  if highway = "motorway" then 110
  else if highway = "trunk" then 90
  else if highway = "primary" then 70
  else if highway = "secondary" then 60
  else if highway = "tertiary" then 50
  else if highway = "residential" then 30
  else if highway = "unclassified" then 40
  else 40

/-- Accumulate the leading decimal digits (`parseInt` stops at the first
non-digit; `none` = no digit consumed, i.e. `NaN`). -/
def parseDigitsAux : List Char → Option Nat → Option Nat
  | [], acc => acc
  | c :: rest, acc =>
    if c.isDigit then parseDigitsAux rest (some ((acc.getD 0) * 10 + (c.toNat - 48)))
    else acc

/-- JavaScript `parseInt` on the lanes tag: an optional sign followed by the
leading decimal digits; `none` stands for `NaN`.  (`parseInt` also skips
leading whitespace and accepts a radix corner, which no OSM lanes tag
exercises and the claims do not depend on.)  For a `NaN` result the caller
would propagate `NaN` into the capacity, a float corner the real-number
model does not represent; the model falls back to the absent-tag default 1
there. -/
def jsParseInt (s : String) : Option Int :=
  match s.data with
  | '-' :: rest => (parseDigitsAux rest none).map (fun n => -(n : Int))
  | l => (parseDigitsAux l none).map (fun n => (n : Int))

/-- The edge built from one raw road inside `buildRoadNetwork`. -/
def edgeOfRoad (road : OSMRoad) : SUMOEdge :=
  { id := road.id
    fromNode := toString (road.nodeIds.headD 0)
    toNode := toString (road.nodeIds.getLastD 0)
    lanes := (jsParseInt (road.tags.lanes.getD "1")).getD 1
    speed := getFreeFlowSpeed (road.tags.highway.getD "unclassified")
    length := calculateRoadLength road.geometry
    capacity := getRoadCapacity (road.tags.highway.getD "unclassified") *
      (((jsParseInt (road.tags.lanes.getD "1")).getD 1 : ℤ) : ℝ) }

/-- `buildRoadNetwork`: one edge per raw road with at least two geometry
points; roads with fewer are skipped. -/
def buildRoadNetwork (net : NetworkData) : List SUMOEdge :=
  net.roads.filterMap fun road =>
    if road.geometry.length < 2 then none else some (edgeOfRoad road)

/-- `this.edgeMap.get id` (the id-keyed index of `edges`). -/
def edgeFind (edges : List SUMOEdge) (id : String) : Option SUMOEdge :=
  edges.find? fun e => e.id == id

/-- `this.edgesFromMap.get n` (outgoing edges of a node, in insertion order). -/
def edgesFrom (edges : List SUMOEdge) (n : String) : List SUMOEdge :=
  edges.filter fun e => e.fromNode == n

/-- `this.network.roads.find(r => r.id === id)!.geometry[0]`.  The source
would crash on a missing road or empty geometry; the model substitutes the
origin coordinate there (never reached on the inputs of the theorems below). -/
def firstGeomPoint (net : NetworkData) (id : String) : Coord :=
  match net.roads.find? (fun road => road.id == id) with
  | some road => road.geometry.headD ⟨0, 0⟩
  | none => ⟨0, 0⟩

open Classical in
/-- The per-edge test of `findNearbyEdges`: the edge's road exists, has a
geometry, and its first point lies within `radiusKm * 1000` meters. -/
def nearbyB (st : SimState) (c : Coord) (radiusKm : ℝ) (e : SUMOEdge) : Bool :=
  match st.network.roads.find? (fun road => road.id == e.id) with
  | none => false
  | some road =>
    match road.geometry with
    | [] => false
    | p :: _ => decide (haversineDistance c p ≤ radiusKm * 1000)

/-- `findNearbyEdges`: edges whose road's first geometry point lies within
`radiusKm * 1000` meters of the given coordinate. -/
def findNearbyEdges (st : SimState) (c : Coord) (radiusKm : ℝ) : List SUMOEdge :=
  st.edges.filter (nearbyB st c radiusKm)

open Classical in
/-- `isNearEdge`: the flow's first coordinate is within 1 km of the edge's
first geometry point. -/
def isNearEdge (st : SimState) (coords : List Coord) (edge : SUMOEdge) : Bool :=
  match coords with
  | [] => false
  | c :: _ =>
    match st.network.roads.find? (fun road => road.id == edge.id) with
    | none => false
    | some road =>
      match road.geometry with
      | [] => false
      | p :: _ => decide (haversineDistance c p < 1000)

/-- The stream of `Math.random()` draws, consumed at an explicit cursor. -/
def Rng : Type := ℕ → ℝ

/-- The edge substituted for a JavaScript `undefined` array access (an
out-of-range random index would crash the source at `dest.id`; with in-range
draws it is never used). -/
def defaultEdge : SUMOEdge :=
  { id := "", fromNode := "", toNode := "", lanes := 1, speed := 0, length := 0, capacity := 0 }

open Classical in
/-- `pickFarEdge`: redraw a uniformly random edge until it differs from the
origin and its road's first geometry point is at least `minDistance` meters
from the origin road's first geometry point.  The source's `do … while` loop
is unbounded; the model's `fuel` counts draws, and `none` means the loop
never exits. -/
def pickFarEdgeAux (st : SimState) (origin : SUMOEdge) (minDistance : ℝ) (r : Rng) :
    ℕ → ℕ → Option (SUMOEdge × ℕ)
  | 0, _ => none
  | fuel + 1, k =>
    let dest := (st.edges.get? (jsFloorIdx (r k) st.edges.length)).getD defaultEdge
    if dest.id = origin.id ∨
        haversineDistance (firstGeomPoint st.network origin.id)
          (firstGeomPoint st.network dest.id) < minDistance then
      pickFarEdgeAux st origin minDistance r fuel (k + 1)
    else
      some (dest, k + 1)

/- ### Polyline utilities (`densifyRoute.ts` and the turf functions it calls) -/

/-- Linear interpolation between two coordinates (the point-on-segment of the
spec's piecewise-linear polyline model). -/
def lerpCoord (p q : Coord) (t : ℝ) : Coord :=
  ⟨p.lng + t * (q.lng - p.lng), p.lat + t * (q.lat - p.lat)⟩

open Classical in
/-- Modelled from the spec: turf's `along` (an external library function whose
code is not in this repository), per §4.4 "the point at distance `i·step`
along the polyline (piecewise linear)": walk the segments, interpolate
linearly within the segment where the distance falls, and return the last
point past the end.  Distance in meters. -/
def pointAtDistance : List Coord → ℝ → Coord
  | [], _ => ⟨0, 0⟩
  | [p], _ => p
  | p :: q :: rest, d =>
    if d ≤ haversineDistance p q then lerpCoord p q (d / haversineDistance p q)
    else pointAtDistance (q :: rest) (d - haversineDistance p q)

/-- Modelled from the spec: turf's `length` (external), "compute total
polyline length by great-circle sums" (§4.4).  It coincides with the engine's
`calculateRoadLength`; turf's earth radius differs from the engine's
6371000 m by about 0.1‰, which no claim distinguishes, so the model uses one
distance function.  Meters. -/
def polylineLength (coords : List Coord) : ℝ := calculateRoadLength coords

/-- `densify(coords, stepMeters)` of `densifyRoute.ts`: if fewer than two
points, return the input; otherwise emit the point at distance `i·step` for
`i = 0 … ceil(total/step)` (turf works in kilometers, hence the conversions;
`Nat.ceil` agrees with `Math.ceil` for the nonnegative ratios that arise, and
for a negative ratio both loops emit only the `i = 0` point). -/
def densify (coords : List Coord) (stepMeters : ℝ) : List Coord :=
  if coords.length < 2 then coords
  else
    (List.range (⌈(polylineLength coords / 1000) / (stepMeters / 1000)⌉₊ + 1)).map
      fun i : ℕ => pointAtDistance coords (stepMeters / 1000 * (i : ℝ) * 1000)

/- ### The per-tick vehicle update (`updateVehicle`) -/

open Classical in
/-- `vehicle.departTime <= t && !vehicle.arrivalTime`. -/
def isActive (v : SUMOVehicle) (t : ℝ) : Bool :=
  decide (v.departTime ≤ t) && v.arrivalTime.isNone

open Classical in
/-- Count of active vehicles whose current edge (`route[0]`) is the given
edge. -/
def countOnEdge (vehicles : List SUMOVehicle) (edgeId : String) (t : ℝ) : ℕ :=
  vehicles.countP fun v => (v.route.head? == some edgeId) && isActive v t

open Classical in
/-- `updateVehicle(vehicle, currentTime, timeStep)`: target speed from the
edge, real-time flow and congestion feedback; smoothing and anti-stall; then
edge progress, edge hand-off and arrival. -/
def updateVehicle (st : SimState) (v : SUMOVehicle) (currentTime : ℕ) (timeStep : ℕ) :
    SUMOVehicle :=
  if v.route = [] then v
  else
    match edgeFind st.edges (v.route.headD "") with
    | none => v
    | some edge =>
      let trafficFlow := st.trafficData.flows.find? fun f => isNearEdge st f.coordinates edge
      let target0 : ℝ :=
        match trafficFlow with
        | some f => min edge.speed f.currentSpeed
        | none => edge.speed
      let edgeVehicles := countOnEdge st.vehicles (v.route.headD "") (currentTime : ℝ)
      let utilization := (edgeVehicles : ℝ) / max 1 (edge.capacity / 3600)
      let targetSpeed :=
        if 0.7 < utilization then target0 * max 0.1 (1 - (utilization - 0.7) * 0.5)
        else target0
      let speed1 := v.speed + (targetSpeed - v.speed) * 0.2
      let speed2 := max 0 speed1
      let speed3 := if 0 < targetSpeed ∧ speed2 < 5 then max 5 (targetSpeed * 0.3) else speed2
      if 0 < speed3 then
        let distanceThisStep := speed3 * (timeStep : ℝ) / 3.6
        if 0 < edge.length then
          let remainingEdgeDistance := edge.length * (1 - v.currentEdgeProgress)
          if remainingEdgeDistance ≤ distanceThisStep then
            let route1 := v.route.tail
            if route1 = [] then
              { v with speed := speed3,
                       distanceTraveled := v.distanceTraveled + remainingEdgeDistance,
                       route := route1, currentEdgeProgress := 0,
                       arrivalTime := some (currentTime : ℝ) }
            else
              match edgeFind st.edges (route1.headD "") with
              | some nextEdge =>
                if 0 < nextEdge.length then
                  { v with speed := speed3,
                           distanceTraveled := v.distanceTraveled + remainingEdgeDistance,
                           route := route1,
                           currentEdgeProgress :=
                             min 0.95 ((distanceThisStep - remainingEdgeDistance) / nextEdge.length) }
                else
                  { v with speed := speed3,
                           distanceTraveled := v.distanceTraveled + remainingEdgeDistance,
                           route := route1, currentEdgeProgress := 0 }
              | none =>
                { v with speed := speed3,
                         distanceTraveled := v.distanceTraveled + remainingEdgeDistance,
                         route := route1, currentEdgeProgress := 0 }
          else
            { v with speed := speed3,
                     distanceTraveled := v.distanceTraveled + distanceThisStep,
                     currentEdgeProgress :=
                       min 0.95 (v.currentEdgeProgress + distanceThisStep / edge.length) }
        else { v with speed := speed3 }
      else { v with speed := speed3 }

/-- The per-vehicle state invariant of claim C1. -/
def VehicleInv (v : SUMOVehicle) : Prop :=
  0 ≤ v.currentEdgeProgress ∧ v.currentEdgeProgress ≤ 0.95 ∧
    0 ≤ v.distanceTraveled ∧ 0 ≤ v.speed

theorem updateVehicle_inv (st : SimState) (v : SUMOVehicle) (currentTime timeStep : ℕ)
    (hv : VehicleInv v) :
    VehicleInv (updateVehicle st v currentTime timeStep) ∧
      v.distanceTraveled ≤ (updateVehicle st v currentTime timeStep).distanceTraveled := by
  obtain ⟨hp0, hp95, hd0, hs0⟩ := hv
  rw [updateVehicle]
  split
  · exact ⟨⟨hp0, hp95, hd0, hs0⟩, le_refl _⟩
  split
  · exact ⟨⟨hp0, hp95, hd0, hs0⟩, le_refl _⟩
  rename_i edge heq
  simp only []
  set target0 : ℝ :=
    match st.trafficData.flows.find? fun f => isNearEdge st f.coordinates edge with
    | some f => min edge.speed f.currentSpeed
    | none => edge.speed with htarget0
  set utilization : ℝ :=
    ((countOnEdge st.vehicles (v.route.headD "") (currentTime : ℝ) : ℕ) : ℝ) /
      max 1 (edge.capacity / 3600) with hutil
  set targetSpeed : ℝ :=
    if 0.7 < utilization then target0 * max 0.1 (1 - (utilization - 0.7) * 0.5)
    else target0 with htarget
  set speed2 : ℝ := max 0 (v.speed + (targetSpeed - v.speed) * 0.2) with hspeed2
  set speed3 : ℝ := if 0 < targetSpeed ∧ speed2 < 5 then max 5 (targetSpeed * 0.3) else speed2
    with hspeed3
  have hs3 : 0 ≤ speed3 := by
    rw [hspeed3]
    split
    · have : (0:ℝ) ≤ 5 := by norm_num
      exact le_trans this (le_max_left _ _)
    · exact le_max_left _ _
  split
  case isTrue hpos =>
    have hd : 0 ≤ speed3 * (timeStep : ℝ) / 3.6 := by positivity
    split
    case isTrue hlen =>
      have hrem : 0 ≤ edge.length * (1 - v.currentEdgeProgress) := by nlinarith
      split
      case isTrue hcross =>
        split
        case isTrue =>
          exact ⟨⟨le_refl 0, by norm_num, by dsimp only; linarith, hs3⟩, by dsimp only; linarith⟩
        case isFalse =>
          split
          · rename_i nextEdge hne
            split
            case isTrue hnl =>
              refine ⟨⟨?_, ?_, by dsimp only; linarith, hs3⟩, by dsimp only; linarith⟩
              · dsimp only
                apply le_min (by norm_num)
                exact div_nonneg (by linarith) hnl.le
              · exact min_le_left _ _
            case isFalse =>
              exact ⟨⟨le_refl 0, by norm_num, by dsimp only; linarith, hs3⟩,
                by dsimp only; linarith⟩
          · exact ⟨⟨le_refl 0, by norm_num, by dsimp only; linarith, hs3⟩,
              by dsimp only; linarith⟩
      case isFalse hcross =>
        refine ⟨⟨?_, min_le_left _ _, by dsimp only; linarith, hs3⟩, by dsimp only; linarith⟩
        dsimp only
        apply le_min (by norm_num)
        have hq : 0 ≤ speed3 * (timeStep : ℝ) / 3.6 / edge.length :=
          div_nonneg hd hlen.le
        linarith
    case isFalse =>
      exact ⟨⟨hp0, hp95, hd0, hs3⟩, le_refl _⟩
  case isFalse =>
    exact ⟨⟨hp0, hp95, hd0, hs3⟩, le_refl _⟩

/- ### Emissions, congestion, and the microsimulation loop -/

open Classical in
/-- `calculateVehicleEmissions`: base factor 120 g/km scaled by the speed
band, times the distance `speed/3600` covered in one second, returned with
the final `grams / 1000` conversion of the source. -/
def calculateVehicleEmissions (v : SUMOVehicle) : ℝ :=
  if v.speed ≤ 0 then 0
  else
    (if v.speed < 20 then 120 * 1.6
     else if v.speed < 40 then 120 * 1.2
     else if 80 < v.speed then 120 * 1.3
     else 120 * 1.0) * (v.speed / 3600) / 1000

open Classical in
/-- The claim-side emission factor of C3: 120 g/km multiplied by 1.6 below
20 km/h, 1.2 on [20, 40), 1.3 above 80, else 1.0. -/
def emissionFactorSpec (speed : ℝ) : ℝ :=
  120 * (if speed < 20 then 1.6 else if speed < 40 then 1.2 else if 80 < speed then 1.3 else 1)

theorem calculateVehicleEmissions_spec (v : SUMOVehicle) (hv : 0 ≤ v.speed) :
    1000 * calculateVehicleEmissions v = emissionFactorSpec v.speed * (v.speed / 3600) := by
  rw [calculateVehicleEmissions, emissionFactorSpec]
  rcases eq_or_lt_of_le hv with h0 | h0
  · rw [if_pos (le_of_eq h0.symm)]
    rw [← h0]
    ring
  · rw [if_neg (by linarith)]
    by_cases h1 : v.speed < 20
    · rw [if_pos h1, if_pos h1]; ring
    · rw [if_neg h1, if_neg h1]
      by_cases h2 : v.speed < 40
      · rw [if_pos h2, if_pos h2]; ring
      · rw [if_neg h2, if_neg h2]
        by_cases h3 : 80 < v.speed
        · rw [if_pos h3, if_pos h3]; ring
        · rw [if_neg h3, if_neg h3]; ring

open Classical in
/-- `calculateCongestionLength` (km): accumulate the length of every edge
whose utilization `count / (capacity/3600)` exceeds 0.7 (no `max 1` clamp in
this routine), then convert to kilometers. -/
def calculateCongestionLength (st : SimState) : ℝ :=
  (st.edges.foldl
    (fun acc edge =>
      if 0.7 < (countOnEdge st.vehicles edge.id (st.simulationTime : ℝ) : ℝ) /
          (edge.capacity / 3600) then acc + edge.length
      else acc) 0) / 1000

open Classical in
/-- The claim-side congested length of C5: the sum, in kilometers, of the
lengths of exactly those edges whose utilization exceeds 0.7. -/
def congestedLengthSpec (st : SimState) : ℝ :=
  ((st.edges.filter fun edge =>
      decide (0.7 < (countOnEdge st.vehicles edge.id (st.simulationTime : ℝ) : ℝ) /
        (edge.capacity / 3600))).map SUMOEdge.length).sum / 1000

open Classical in
theorem foldl_if_add_eq_filter_sum {α : Type} (p : α → Prop) (g : α → ℝ) :
    ∀ (l : List α) (acc : ℝ),
      l.foldl (fun a e => if p e then a + g e else a) acc =
        acc + ((l.filter fun e => decide (p e)).map g).sum := by
  intro l
  induction l with
  | nil => intro acc; simp
  | cons e rest ih =>
    intro acc
    rw [List.foldl_cons, List.filter_cons]
    by_cases hp : p e
    · rw [if_pos hp, if_pos (by simpa using hp), ih, List.map_cons, List.sum_cons]
      ring
    · rw [if_neg hp, if_neg (by simpa using hp), ih]

theorem calculateCongestionLength_spec (st : SimState) :
    calculateCongestionLength st = congestedLengthSpec st := by
  rw [calculateCongestionLength, congestedLengthSpec,
    foldl_if_add_eq_filter_sum
      (fun edge => 0.7 < (countOnEdge st.vehicles edge.id (st.simulationTime : ℝ) : ℝ) /
        (edge.capacity / 3600))
      SUMOEdge.length st.edges 0, zero_add]

open Classical in
/-- The per-vehicle loop body of one `runMicrosimulation` iteration: update
each active vehicle in place (later vehicles see earlier updates),
accumulating the emissions added this iteration (only when `t % 10 = 0`),
the speed sum and the speed count. -/
def processVehiclesAux (t step : ℕ) :
    List ℕ → SimState → ℝ → ℝ → ℕ → SimState × ℝ × ℝ × ℕ
  | [], st, e, ss, sc => (st, e, ss, sc)
  | i :: rest, st, e, ss, sc =>
    match st.vehicles.get? i with
    | none => processVehiclesAux t step rest st e ss sc
    | some v =>
      if isActive v (t : ℝ) then
        let v1 := updateVehicle st v t step
        processVehiclesAux t step rest { st with vehicles := st.vehicles.set i v1 }
          (if t % 10 = 0 then e + calculateVehicleEmissions v1 else e) (ss + v1.speed) (sc + 1)
      else processVehiclesAux t step rest st e ss sc

/-- One pass over all vehicles. -/
def processVehicles (st : SimState) (t step : ℕ) : SimState × ℝ × ℝ × ℕ :=
  processVehiclesAux t step (List.range st.vehicles.length) st 0 0 0

open Classical in
/-- Claim-side ghost of C3: the same in-place pass, but summing each active
vehicle's emission sample in grams, `emission_factor(speed) × (speed/3600)`,
at every visited time with `t % 10 = 0`. -/
def specGramsPassAux (t step : ℕ) : List ℕ → SimState → ℝ → SimState × ℝ
  | [], st, g => (st, g)
  | i :: rest, st, g =>
    match st.vehicles.get? i with
    | none => specGramsPassAux t step rest st g
    | some v =>
      if isActive v (t : ℝ) then
        let v1 := updateVehicle st v t step
        specGramsPassAux t step rest { st with vehicles := st.vehicles.set i v1 }
          (if t % 10 = 0 then g + emissionFactorSpec v1.speed * (v1.speed / 3600) else g)
      else specGramsPassAux t step rest st g

/-- All vehicles of a state satisfy the C1 invariant. -/
def StateInv (st : SimState) : Prop := ∀ v ∈ st.vehicles, VehicleInv v

theorem processVehiclesAux_inv (t step : ℕ) (l : List ℕ) :
    ∀ (st : SimState) (e ss : ℝ) (sc : ℕ), StateInv st →
      StateInv (processVehiclesAux t step l st e ss sc).1 := by
  induction l with
  | nil => intro st e ss sc h; exact h
  | cons i rest ih =>
    intro st e ss sc h
    rw [processVehiclesAux]
    cases hg : st.vehicles.get? i with
    | none => exact ih st e ss sc h
    | some v =>
      dsimp only
      by_cases ha : isActive v (t : ℝ) = true
      · rw [if_pos ha]
        apply ih
        intro w hw
        rcases List.mem_or_eq_of_mem_set hw with hmem | heq
        · exact h w hmem
        · subst heq
          exact (updateVehicle_inv st v t step (h v (List.get?_mem hg))).1
      · rw [if_neg ha]
        exact ih st e ss sc h

theorem specGramsPassAux_spec (t step : ℕ) (l : List ℕ) :
    ∀ (st : SimState) (e ss g : ℝ) (sc : ℕ), StateInv st →
      (specGramsPassAux t step l st g).1 = (processVehiclesAux t step l st e ss sc).1 ∧
        (specGramsPassAux t step l st g).2 =
          g + 1000 * ((processVehiclesAux t step l st e ss sc).2.1 - e) := by
  induction l with
  | nil =>
    intro st e ss g sc _
    constructor
    · rfl
    · rw [specGramsPassAux, processVehiclesAux]
      ring
  | cons i rest ih =>
    intro st e ss g sc h
    rw [specGramsPassAux, processVehiclesAux]
    cases hg : st.vehicles.get? i with
    | none => exact ih st e ss g sc h
    | some v =>
      dsimp only
      by_cases ha : isActive v (t : ℝ) = true
      · rw [if_pos ha, if_pos ha]
        have hv : VehicleInv v := h v (List.get?_mem hg)
        have hv1 : VehicleInv (updateVehicle st v t step) := (updateVehicle_inv st v t step hv).1
        have hinv :
            StateInv { st with vehicles := st.vehicles.set i (updateVehicle st v t step) } := by
          intro w hw
          rcases List.mem_or_eq_of_mem_set hw with hmem | heq
          · exact h w hmem
          · subst heq; exact hv1
        obtain ⟨h1, h2⟩ := ih { st with vehicles := st.vehicles.set i (updateVehicle st v t step) }
          (if t % 10 = 0 then e + calculateVehicleEmissions (updateVehicle st v t step) else e)
          (ss + (updateVehicle st v t step).speed)
          (if t % 10 = 0 then g + emissionFactorSpec (updateVehicle st v t step).speed *
            ((updateVehicle st v t step).speed / 3600) else g)
          (sc + 1) hinv
        refine ⟨h1, ?_⟩
        rw [h2]
        by_cases ht : t % 10 = 0
        · rw [if_pos ht, if_pos ht, ← calculateVehicleEmissions_spec _ hv1.2.2.2]
          ring
        · rw [if_neg ht, if_neg ht]
      · rw [if_neg ha, if_neg ha]
        exact ih st e ss g sc h

/-- `SimulationState`, the record returned by `runMicrosimulation`. -/
structure SimulationState where
  time : ℕ
  vehicles : List SUMOVehicle
  totalDistance : ℝ
  totalEmissions : ℝ
  congestionLength : ℝ
  averageSpeed : ℝ

open Classical in
/-- The outer loop of `runMicrosimulation`: count the active vehicles, pick
the step size (1 s above 100 active vehicles, else 10 s), run the vehicle
pass, recompute the total distance, sample the congestion length every
300 s, and advance the clock; on exit, report the accumulated totals with
the congestion sum divided by `durationMinutes / 5`.  The source loop is
`while (t < maxTime)` with `t` growing by at least 1 per iteration, so a
fuel of `maxTime + 1` can never run out before the exit condition holds. -/
def runMicrosimulationAux (durationMinutes : ℕ) :
    ℕ → SimState → ℕ → ℝ → ℝ → ℝ → ℝ → ℕ → SimulationState × SimState
  | 0, st, _, totalDistance, totalEmissions, congestionLength, speedSum, speedCount =>
    ({ time := st.simulationTime, vehicles := st.vehicles,
       totalDistance := totalDistance, totalEmissions := totalEmissions,
       congestionLength := congestionLength / ((durationMinutes : ℝ) / 5),
       averageSpeed := if 0 < speedCount then speedSum / (speedCount : ℝ) else 0 }, st)
  | fuel + 1, st, t, totalDistance, totalEmissions, congestionLength, speedSum, speedCount =>
    if t < durationMinutes * 60 then
      let st0 : SimState := { st with simulationTime := t }
      let step := if 100 < st0.vehicles.countP fun v => isActive v (t : ℝ) then 1 else 10
      let pr := processVehicles st0 t step
      runMicrosimulationAux durationMinutes fuel pr.1 (t + step)
        ((pr.1.vehicles.map SUMOVehicle.distanceTraveled).sum / 1000)
        (totalEmissions + pr.2.1)
        (if t % 300 = 0 then congestionLength + calculateCongestionLength pr.1
          else congestionLength)
        (speedSum + pr.2.2.1) (speedCount + pr.2.2.2)
    else
      ({ time := st.simulationTime, vehicles := st.vehicles,
         totalDistance := totalDistance, totalEmissions := totalEmissions,
         congestionLength := congestionLength / ((durationMinutes : ℝ) / 5),
         averageSpeed := if 0 < speedCount then speedSum / (speedCount : ℝ) else 0 }, st)

/-- `runMicrosimulation(durationMinutes)`. -/
def runMicrosimulation (st : SimState) (durationMinutes : ℕ) : SimulationState × SimState :=
  runMicrosimulationAux durationMinutes (durationMinutes * 60 + 1) st 0 0 0 0 0 0

open Classical in
/-- Claim-side ghost loop for C3 and C5: rerun the identical state evolution,
accumulating the emission samples in grams and the congestion-length samples
at the visited times divisible by 300 s. -/
def specLoopAux (durationMinutes : ℕ) : ℕ → SimState → ℕ → ℝ → ℝ → ℝ × ℝ
  | 0, _, _, grams, congSamples => (grams, congSamples)
  | fuel + 1, st, t, grams, congSamples =>
    if t < durationMinutes * 60 then
      let st0 : SimState := { st with simulationTime := t }
      let step := if 100 < st0.vehicles.countP fun v => isActive v (t : ℝ) then 1 else 10
      let pr := specGramsPassAux t step (List.range st0.vehicles.length) st0 0
      specLoopAux durationMinutes fuel pr.1 (t + step) (grams + pr.2)
        (if t % 300 = 0 then congSamples + congestedLengthSpec pr.1 else congSamples)
    else (grams, congSamples)

/-- Total emission grams of the ghost loop over a whole run. -/
def specEmissionsGrams (st : SimState) (durationMinutes : ℕ) : ℝ :=
  (specLoopAux durationMinutes (durationMinutes * 60 + 1) st 0 0 0).1

/-- Sum of the periodic congestion-length samples of the ghost loop. -/
def specCongestionSamples (st : SimState) (durationMinutes : ℕ) : ℝ :=
  (specLoopAux durationMinutes (durationMinutes * 60 + 1) st 0 0 0).2

theorem specLoopAux_spec (durationMinutes : ℕ) (hdm : durationMinutes ≠ 0) (fuel : ℕ) :
    ∀ (st : SimState) (t : ℕ) (td te cl ss grams cs : ℝ) (sc : ℕ), StateInv st →
      (specLoopAux durationMinutes fuel st t grams cs).1 =
        grams + 1000 * ((runMicrosimulationAux durationMinutes fuel st t td te cl ss
          sc).1.totalEmissions - te) ∧
      (specLoopAux durationMinutes fuel st t grams cs).2 =
        cs + ((runMicrosimulationAux durationMinutes fuel st t td te cl ss
          sc).1.congestionLength * ((durationMinutes : ℝ) / 5) - cl) := by
  have hdm5 : ((durationMinutes : ℝ) / 5) ≠ 0 := by
    have h0 : (0 : ℝ) < (durationMinutes : ℝ) := by
      exact_mod_cast Nat.pos_of_ne_zero hdm
    positivity
  induction fuel with
  | zero =>
    intro st t td te cl ss grams cs sc _
    rw [specLoopAux, runMicrosimulationAux]
    refine ⟨by dsimp only; ring, ?_⟩
    dsimp only
    rw [div_mul_cancel₀ _ hdm5]
    ring
  | succ fuel ih =>
    intro st t td te cl ss grams cs sc h
    rw [specLoopAux, runMicrosimulationAux]
    by_cases ht : t < durationMinutes * 60
    · rw [if_pos ht, if_pos ht]
      dsimp only
      simp only [processVehicles]
      have hinv0 : StateInv { st with simulationTime := t } := fun v hv => h v hv
      set stp : ℕ :=
        if 100 < List.countP (fun v => isActive v (t : ℝ)) st.vehicles then 1 else 10 with hstp
      set pr := processVehiclesAux t stp (List.range st.vehicles.length)
        { st with simulationTime := t } 0 0 0 with hpr
      obtain ⟨hst, hg⟩ := specGramsPassAux_spec t stp (List.range st.vehicles.length)
        { st with simulationTime := t } 0 0 0 0 hinv0
      have hinv1 : StateInv pr.1 :=
        processVehiclesAux_inv t stp (List.range st.vehicles.length)
          { st with simulationTime := t } 0 0 0 hinv0
      rw [← hpr] at hst hg
      rw [hst, hg]
      obtain ⟨ih1, ih2⟩ := ih pr.1 (t + stp)
        ((pr.1.vehicles.map SUMOVehicle.distanceTraveled).sum / 1000)
        (te + pr.2.1)
        (if t % 300 = 0 then cl + calculateCongestionLength pr.1 else cl)
        (ss + pr.2.2.1)
        (grams + (0 + 1000 * (pr.2.1 - 0)))
        (if t % 300 = 0 then cs + congestedLengthSpec pr.1 else cs)
        (sc + pr.2.2.2) hinv1
      refine ⟨?_, ?_⟩
      · rw [ih1]
        ring
      · rw [ih2, calculateCongestionLength_spec]
        by_cases h300 : t % 300 = 0
        · rw [if_pos h300, if_pos h300]
          ring
        · rw [if_neg h300, if_neg h300]
          try ring
    · rw [if_neg ht, if_neg ht]
      refine ⟨by dsimp only; ring, ?_⟩
      dsimp only
      rw [div_mul_cancel₀ _ hdm5]
      ring

/- ### Route building, demand, trips, marker impacts (`sumo-simulation.ts`) -/

open Classical in
/-- The body of `findSimpleRoute`'s `while` loop.  Each iteration appends one
edge, so the condition `route.length < 200` bounds it; `w` is the remaining
iteration budget (200 suffices).  `fuel` bounds the `pickFarEdge` draws of
the dead-end escape.  Returns `(route, cursor node, cumulative length, rng cursor)`. -/
def routeWalkAux (st : SimState) (minMeters : ℝ) (r : Rng) (fuel : ℕ) :
    ℕ → List String → List String → String → ℝ → ℕ →
      Option (List String × String × ℝ × ℕ)
  | 0, route, _, current, cum, k => some (route, current, cum, k)
  | w + 1, route, visited, current, cum, k =>
    if cum < minMeters ∧ route.length < 200 then
      let nextEdges := (edgesFrom st.edges current).filter fun e => !(visited.contains e.id)
      if nextEdges.isEmpty then
        match route.getLast? with
        | none => none
        | some lastId =>
          match edgeFind st.edges lastId with
          | none => none
          | some lastEdge =>
            match pickFarEdgeAux st lastEdge 1000 r fuel k with
            | none => none
            | some (jump, k1) =>
              routeWalkAux st minMeters r fuel w (route ++ [jump.id]) (jump.id :: visited)
                jump.toNode (cum + jump.length) k1
      else
        let next := (nextEdges.get? (jsFloorIdx (r k) nextEdges.length)).getD defaultEdge
        routeWalkAux st minMeters r fuel w (route ++ [next.id]) (next.id :: visited)
          next.toNode (cum + next.length) (k + 1)
    else some (route, current, cum, k)

open Classical in
/-- `findSimpleRoute(originEdgeId, destEdgeId)`: memoised stochastic
length-targeted walk with a random 4–8 km target; always connects to the
destination; retries once (recursively, endpoints swapped) when still short.
`fuel` bounds the swap recursion and the `pickFarEdge` draws; `none` stands
for a computation that never returns. -/
def findSimpleRoute (r : Rng) :
    ℕ → SimState → String → String → ℕ → Option (List String × SimState × ℕ)
  | 0, _, _, _, _ => none
  | fuel + 1, st, originEdgeId, destEdgeId, k =>
    match st.routeCache.lookup (originEdgeId, destEdgeId) with
    | some route => some (route, st, k)
    | none =>
      match edgeFind st.edges originEdgeId, edgeFind st.edges destEdgeId with
      | some originEdge, some destEdge =>
        let minMeters := 4000 + r k * 4000
        match routeWalkAux st minMeters r (fuel + 1) 200 [originEdgeId] [originEdgeId]
            originEdge.toNode originEdge.length (k + 1) with
        | none => none
        | some (route1, current, cum1, k1) =>
          let route2 := if current ≠ destEdge.fromNode then route1 ++ [destEdgeId] else route1
          let cum2 := if current ≠ destEdge.fromNode then cum1 + destEdge.length else cum1
          if cum2 < minMeters then
            findSimpleRoute r fuel st destEdgeId originEdgeId k1
          else
            some (route2,
              { st with routeCache := ((originEdgeId, destEdgeId), route2) :: st.routeCache },
              k1)
      | _, _ => some ([originEdgeId], st, k)

/-- The route-geometry build shared by `generateVehicleTrips` and
`addFacilityTraffic`: per route edge with a found road of more than one
geometry point, densify at 5 m, drop the first point of every edge after the
first, and accumulate the edge lengths. -/
def buildRouteGeometry (st : SimState) (route : List String) : List Coord × ℝ :=
  route.foldl
    (fun acc edgeId =>
      match st.network.roads.find? (fun road => road.id == edgeId) with
      | none => acc
      | some road =>
        if 1 < road.geometry.length then
          (acc.1 ++ (if acc.1.isEmpty then densify road.geometry 5
                     else (densify road.geometry 5).drop 1),
           acc.2 + (match edgeFind st.edges edgeId with
                    | some edge => edge.length
                    | none => 0))
        else acc)
    ([], 0)

open Classical in
/-- The trip-construction tail of one `generateVehicleTrips` iteration:
build the route geometry, skip trips whose accumulated edge length is under
200 m, fail like turf's `lineString` on fewer than two positions, otherwise
push the vehicle `vehicle_i`. -/
def finishTrip (r : Rng) (i : ℕ) (originEdge : SUMOEdge) (departTime : ℝ)
    (route : List String) (st1 : SimState) (k4 : ℕ) : Option (SimState × ℕ) :=
  let geom := buildRouteGeometry st1 route
  if geom.2 < 200 then some (st1, k4)
  else if geom.1.length < 2 then none
  else
    some ({ st1 with vehicles := st1.vehicles ++
      [{ id := VehicleId.vehicle i, route := route, departTime := departTime,
         arrivalTime := none,
         speed := max 15 (originEdge.speed * (0.6 + r k4 * 0.4)), emissions := 0,
         routeProgress := 0, routeCoordinates := geom.1, distanceTraveled := 0,
         currentEdgeProgress := 0, totalRouteLength := geom.2,
         line := geom.1, lineLength := polylineLength geom.1 / 1000 }] }, k4 + 1)

open Classical in
/-- One iteration `i` of `generateVehicleTrips`: draw the departure time and
the origin edge, pick a far destination, build the route (via
`findSimpleRoute` when origin and destination differ), then `finishTrip`. -/
def generateOneTrip (r : Rng) (fuel i : ℕ) (st : SimState) (k : ℕ) :
    Option (SimState × ℕ) :=
  match st.edges.get? (jsFloorIdx (r (k + 1)) st.edges.length) with
  | none => none
  | some originEdge =>
    match pickFarEdgeAux st originEdge 2000 r fuel (k + 2) with
    | none => none
    | some (destEdge, k3) =>
      if originEdge.id = destEdge.id then
        finishTrip r i originEdge (r k * 2400) [originEdge.id] st k3
      else
        match findSimpleRoute r fuel st originEdge.id destEdge.id k3 with
        | none => none
        | some (fullRoute, st1, k4) =>
          finishTrip r i originEdge (r k * 2400)
            (if 0 < fullRoute.length then fullRoute else [originEdge.id]) st1 k4

/-- The loop of `generateVehicleTrips`: iteration index `i`, remaining
count `n`. -/
def generateVehicleTripsAux (r : Rng) (fuel : ℕ) :
    ℕ → ℕ → SimState → ℕ → Option (SimState × ℕ)
  | _, 0, st, k => some (st, k)
  | i, n + 1, st, k =>
    match generateOneTrip r fuel i st k with
    | none => none
    | some (st1, k1) => generateVehicleTripsAux r fuel (i + 1) n st1 k1

/-- `generateVehicleTrips(vehicleCount)`: reset the vehicle list, then build
the trips with ids `vehicle_i`. -/
def generateVehicleTrips (st : SimState) (vehicleCount : ℕ) (r : Rng) (k : ℕ) (fuel : ℕ) :
    Option (SimState × ℕ) :=
  generateVehicleTripsAux r fuel 0 vehicleCount { st with vehicles := [] } k

/-- `calculateFacilityTrafficGeneration`: `min(round(density × 4 × 0.05), 100)`. -/
def calculateFacilityTrafficGeneration (st : SimState) : ℤ :=
  min (jsRound (st.populationData.density * 4 * 0.05)) 100

open Classical in
/-- The loop of `addFacilityTraffic`: each iteration restarts ids at
`facility_trip_0` for `i = 0`; every iteration pushes a vehicle. -/
def addFacilityTrafficAux (r : Rng) (fuel : ℕ) (nearbyEdges : List SUMOEdge) :
    ℕ → ℕ → SimState → ℕ → Option (SimState × ℕ)
  | _, 0, st, k => some (st, k)
  | i, n + 1, st, k =>
    match nearbyEdges.get? (jsFloorIdx (r k) nearbyEdges.length) with
    | none => none
    | some outEdge =>
      match pickFarEdgeAux st outEdge 1000 r fuel (k + 1) with
      | none => none
      | some (backEdge, k1) =>
        match findSimpleRoute r fuel st outEdge.id backEdge.id k1 with
        | none => none
        | some (facilityRoute, st1, k2) =>
          let geom := buildRouteGeometry st1 facilityRoute
          if geom.1.length < 2 then none
          else
            addFacilityTrafficAux r fuel nearbyEdges (i + 1) n
              { st1 with vehicles := st1.vehicles ++
                [{ id := VehicleId.facilityTrip i, route := facilityRoute,
                   departTime := r k2 * 3600, arrivalTime := none,
                   speed := max 10 (outEdge.speed * 0.6), emissions := 0,
                   routeProgress := 0, routeCoordinates := geom.1, distanceTraveled := 0,
                   currentEdgeProgress := 0, totalRouteLength := geom.2,
                   line := geom.1, lineLength := polylineLength geom.1 / 1000 }] } (k2 + 1)

/-- `addFacilityTraffic(coordinates, additionalVehicles)`: find the edges
within 200 m once; if none, return; otherwise run the trip loop. -/
def addFacilityTraffic (st : SimState) (c : Coord) (additionalVehicles : ℤ) (r : Rng)
    (k : ℕ) (fuel : ℕ) : Option (SimState × ℕ) :=
  let nearbyEdges := findNearbyEdges st c 0.2
  if nearbyEdges.isEmpty then some (st, k)
  else addFacilityTrafficAux r fuel nearbyEdges 0 additionalVehicles.toNat st k

/-- A user marker as passed to `applyMarkerImpacts`. -/
structure Marker where
  type : String
  coordinates : Coord

open Classical in
/-- The construction branch of `applyMarkerImpacts` over one marker's nearby
edges: each edge not yet in the affected set gets
`speed := max(5, 0.4·speed)`, `capacity := max(50, 0.6·capacity)`, overridden
to `speed 5 / capacity 10` with probability 5%, and is logged and marked. -/
def applyConstructionAux (r : Rng) :
    List SUMOEdge → SimState → List String → ℕ → SimState × List String × ℕ
  | [], st, affected, k => (st, affected, k)
  | edge :: rest, st, affected, k =>
    if edge.id ∈ affected then applyConstructionAux r rest st affected k
    else
      let newSpeed := if r k < 0.05 then (5 : ℝ) else max 5 (edge.speed * 0.4)
      let newCapacity := if r k < 0.05 then (10 : ℝ) else max 50 (edge.capacity * 0.6)
      applyConstructionAux r rest
        { st with
          edges := st.edges.map fun e =>
            if e.id == edge.id then { e with speed := newSpeed, capacity := newCapacity }
            else e,
          constructionLogs := st.constructionLogs ++
            [{ edgeId := edge.id, originalSpeed := edge.speed, reducedSpeed := newSpeed }] }
        (edge.id :: affected) (k + 1)

open Classical in
/-- `applyMarkerImpacts(markers)`: per marker, compute the 500 m nearby
edges; construction markers reduce them (once per edge, tracked by the
affected set); facility markers, deduplicated by their `toFixed(6)`
coordinate key, inject facility trips; other types are ignored.  The final
affected set is stored on the state. -/
def applyMarkerImpactsAux (r : Rng) (fuel : ℕ) :
    List Marker → SimState → List String → List (ℤ × ℤ) → ℕ →
      Option (SimState × List String × ℕ)
  | [], st, affected, _, k => some (st, affected, k)
  | m :: rest, st, affected, processed, k =>
    let nearbyEdges := findNearbyEdges st m.coordinates 0.5
    if m.type = "construction" then
      let res := applyConstructionAux r nearbyEdges st affected k
      applyMarkerImpactsAux r fuel rest res.1 res.2.1 processed res.2.2
    else if m.type = "facility" then
      let key := (toFixed6Key m.coordinates.lng, toFixed6Key m.coordinates.lat)
      if key ∈ processed then applyMarkerImpactsAux r fuel rest st affected processed k
      else
        match addFacilityTraffic st m.coordinates (calculateFacilityTrafficGeneration st)
            r k fuel with
        | none => none
        | some (st1, k1) =>
          applyMarkerImpactsAux r fuel rest st1 affected (key :: processed) k1
    else applyMarkerImpactsAux r fuel rest st affected processed k

/-- `applyMarkerImpacts(markers)` (see `applyMarkerImpactsAux`). -/
def applyMarkerImpacts (st : SimState) (markers : List Marker) (r : Rng) (k : ℕ)
    (fuel : ℕ) : Option (SimState × ℕ) :=
  match applyMarkerImpactsAux r fuel markers st [] [] k with
  | none => none
  | some (st1, affected, k1) => some ({ st1 with affectedEdgesSet := affected }, k1)

open Classical in
/-- `generateVehicleDemand()`: `min(round(estimatedVehicles × peakHourFactor
× trafficMultiplier), 500)` with the congestion-level multiplier chain. -/
def generateVehicleDemand (st : SimState) : ℤ :=
  min (jsRound (st.populationData.estimatedVehicles * st.populationData.peakHourFactor *
    (if st.trafficData.congestionLevel = CongestionLevel.SEVERE then 1.3
     else if st.trafficData.congestionLevel = CongestionLevel.HIGH then 1.2
     else if st.trafficData.congestionLevel = CongestionLevel.MEDIUM then 1.1
     else 1.0))) 500

/-- The numeric payloads of the `SimulationMetrics` strings
(`"${N} km"`, `"${N.N} km"`, `"${N} kg"`). -/
structure SimulationMetricsM where
  drivingDistance : ℤ
  congestionLength : ℝ
  co2Emissions : ℤ

/-- `calculateMetrics(finalState)`: one shared ±5% variance draw; distance
and emissions rounded to integers, congestion length to one decimal.  The
emissions figure is `round(totalEmissions × 1000 × (1 + variance))`: the
accumulator holds the gram total divided by 1000, so the reported number is
the accumulated gram total (labelled "kg" by the source). -/
def calculateMetrics (finalState : SimulationState) (r : Rng) (k : ℕ) :
    SimulationMetricsM × ℕ :=
  ({ drivingDistance := jsRound (finalState.totalDistance * (1 + (r k - 0.5) * 0.1)),
     congestionLength := roundTo1 finalState.congestionLength,
     co2Emissions := jsRound (finalState.totalEmissions * 1000 * (1 + (r k - 0.5) * 0.1)) },
   k + 1)

/-- The constructor `new RealTrafficSimulation(network, traffic, population)`. -/
def initSimState (net : NetworkData) (traffic : TrafficData) (pop : PopulationData) :
    SimState :=
  { network := net, trafficData := traffic, populationData := pop,
    edges := buildRoadNetwork net, vehicles := [], simulationTime := 0,
    constructionLogs := [], affectedEdgesSet := [], routeCache := [] }

/-- `simulate(markers, durationMinutes)`: marker impacts, demand, trips,
microsimulation, metrics. -/
def simulate (st : SimState) (markers : List Marker) (durationMinutes : ℕ) (r : Rng)
    (k : ℕ) (fuel : ℕ) : Option (SimulationMetricsM × SimState × ℕ) :=
  match applyMarkerImpacts st markers r k fuel with
  | none => none
  | some (st1, k1) =>
    match generateVehicleTrips st1 (generateVehicleDemand st1).toNat r k1 fuel with
    | none => none
    | some (st2, k2) =>
      let run := runMicrosimulation st2 durationMinutes
      let m := calculateMetrics run.1 r k2
      some (m.1, run.2, m.2)

/- ### The orchestrator (`simulation.ts`) -/

/-- `runFallbackSimulation(markers)`: the deterministic closed-form estimator
(385 km / 0.8 km / 72 kg baseline, +15/+0.8/+12 per construction marker,
+8/+0.3/+6 per facility marker, one shared ±5% variance draw). -/
def runFallbackSimulation (markers : List Marker) (r : Rng) (k : ℕ) :
    SimulationMetricsM × ℕ :=
  let constructionCount := markers.countP fun m => m.type == "construction"
  let facilityCount := markers.countP fun m => m.type == "facility"
  ({ drivingDistance :=
       jsRound ((385 + (constructionCount : ℝ) * 15 + (facilityCount : ℝ) * 8) *
         (1 + (r k - 0.5) * 0.1)),
     congestionLength :=
       roundTo1 ((0.8 + (constructionCount : ℝ) * 0.8 + (facilityCount : ℝ) * 0.3) *
         (1 + (r k - 0.5) * 0.1)),
     co2Emissions :=
       jsRound ((72 + (constructionCount : ℝ) * 12 + (facilityCount : ℝ) * 6) *
         (1 + (r k - 0.5) * 0.1)) }, k + 1)

/-- `runTrafficSimulation(markers, durationMinutes, radiusKm)` of
`simulation.ts`, with the three provider results supplied as inputs.  The
`markers.length === 0` guard throws *inside* the `try`, and the surrounding
catch-all returns the fallback estimator, so the empty-marker case produces
the fallback metrics object.  `none` stands for an engine pipeline that
never returns (the unbounded retry loops); a pipeline that throws would
also be caught into the fallback, a path no theorem below depends on. -/
def runTrafficSimulationModel (markers : List Marker) (net : NetworkData)
    (traffic : TrafficData) (pop : PopulationData) (durationMinutes : ℕ) (r : Rng)
    (k : ℕ) (fuel : ℕ) : Option SimulationMetricsM :=
  if markers.length = 0 then some (runFallbackSimulation markers r k).1
  else
    match simulate (initSimState net traffic pop) markers durationMinutes r k fuel with
    | none => none
    | some (m, _, _) => some m

/- ### Headings and bearings (live snapshot builder) -/

/-- Modelled from the spec: turf's `bearing(p1, p2)` (an external library
function), the great-circle bearing the spec mandates, in degrees with
0 = north measured clockwise:
`atan2(sin Δλ · cos φ₂, cos φ₁ · sin φ₂ − sin φ₁ · cos φ₂ · cos Δλ)`. -/
def turfBearing (p1 p2 : Coord) : ℝ :=
  jsAtan2 (sin ((p2.lng - p1.lng) * π / 180) * cos (p2.lat * π / 180))
    (cos (p1.lat * π / 180) * sin (p2.lat * π / 180) -
      sin (p1.lat * π / 180) * cos (p2.lat * π / 180) * cos ((p2.lng - p1.lng) * π / 180))
    * 180 / π

/-- turf `along(line, dKm)` on a vehicle's stored line (kilometers). -/
def pointAlongKm (line : List Coord) (dKm : ℝ) : Coord :=
  pointAtDistance line (dKm * 1000)

open Classical in
/-- `calculateHeading(vehicle, progress)` of the engine version using the
turf great-circle `bearing` between the interpolated point and the point at
`progress + 0.001` (clamped to 1); 0 when the line or its length is absent
(the empty list and length 0 stand for the JS falsy values). -/
def calculateHeadingBearing (v : SUMOVehicle) (progress : ℝ) : ℝ :=
  if v.line.isEmpty ∨ v.lineLength = 0 then 0
  else
    turfBearing (pointAlongKm v.line (v.lineLength * progress))
      (pointAlongKm v.line (v.lineLength * min (progress + 0.001) 1))

open Classical in
/-- `calculateHeading(vehicle, progress)` of the sibling engine version that
computes the heading as planar `atan2(Δlng, Δlat) · 180/π` on the same two
sampled points. -/
def calculateHeadingAtan2 (v : SUMOVehicle) (progress : ℝ) : ℝ :=
  if v.line.isEmpty ∨ v.lineLength = 0 then 0
  else
    jsAtan2 ((pointAlongKm v.line (v.lineLength * min (progress + 0.001) 1)).lng -
        (pointAlongKm v.line (v.lineLength * progress)).lng)
      ((pointAlongKm v.line (v.lineLength * min (progress + 0.001) 1)).lat -
        (pointAlongKm v.line (v.lineLength * progress)).lat) * 180 / π

/-- The heading emitted for a live-snapshot vehicle on the multi-edge path,
at `routeProgress = min(1, distanceTraveled / totalRouteLength)` (atan2
version of the snapshot builder). -/
def snapshotHeadingAtan2 (v : SUMOVehicle) : ℝ :=
  calculateHeadingAtan2 v (min 1 (v.distanceTraveled / v.totalRouteLength))

/- ### Support lemmas about trip generation and the loop -/

theorem findSimpleRoute_state (r : Rng) :
    ∀ (fuel : ℕ) (st : SimState) (o d : String) (k : ℕ) (res : List String × SimState × ℕ),
      findSimpleRoute r fuel st o d k = some res →
      ∃ rc, res.2.1 = { st with routeCache := rc } := by
  intro fuel
  induction fuel with
  | zero => intro st o d k res h; exact absurd h (by rw [findSimpleRoute]; simp)
  | succ fuel ih =>
    intro st o d k res h
    rw [findSimpleRoute] at h
    cases hc : st.routeCache.lookup (o, d) with
    | some route =>
      rw [hc] at h
      cases h
      exact ⟨st.routeCache, rfl⟩
    | none =>
      rw [hc] at h
      cases ho : edgeFind st.edges o with
      | none =>
        rw [ho] at h
        cases h
        exact ⟨st.routeCache, rfl⟩
      | some oe =>
        cases hd : edgeFind st.edges d with
        | none =>
          rw [ho, hd] at h
          cases h
          exact ⟨st.routeCache, rfl⟩
        | some de =>
          rw [ho, hd] at h
          dsimp only at h
          cases hw : routeWalkAux st (4000 + r k * 4000) r (fuel + 1) 200 [o] [o]
              oe.toNode oe.length (k + 1) with
          | none => rw [hw] at h; cases h
          | some w =>
            rw [hw] at h
            dsimp only at h
            by_cases hshort :
                (if w.2.1 ≠ de.fromNode then w.2.2.1 + de.length else w.2.2.1) <
                  4000 + r k * 4000
            · rw [if_pos hshort] at h
              exact ih st d o w.2.2.2 res h
            · rw [if_neg hshort] at h
              cases h
              exact ⟨_, rfl⟩

theorem findSimpleRoute_vehicles (r : Rng) (fuel : ℕ) (st : SimState) (o d : String)
    (k : ℕ) (res : List String × SimState × ℕ)
    (h : findSimpleRoute r fuel st o d k = some res) : res.2.1.vehicles = st.vehicles := by
  obtain ⟨rc, hrc⟩ := findSimpleRoute_state r fuel st o d k res h
  rw [hrc]

theorem finishTrip_vehicles (r : Rng) (i : ℕ) (originEdge : SUMOEdge) (departTime : ℝ)
    (route : List String) (st1 : SimState) (k4 : ℕ) (res : SimState × ℕ)
    (h : finishTrip r i originEdge departTime route st1 k4 = some res) :
    res.1.vehicles = st1.vehicles ∨
      ∃ w, res.1.vehicles = st1.vehicles ++ [w] ∧ w.id = VehicleId.vehicle i ∧
        VehicleInv w := by
  rw [finishTrip] at h
  try dsimp only at h
  by_cases h200 : (buildRouteGeometry st1 route).2 < 200
  · rw [if_pos h200] at h
    cases h
    left
    rfl
  · rw [if_neg h200] at h
    by_cases hlen : (buildRouteGeometry st1 route).1.length < 2
    · rw [if_pos hlen] at h
      cases h
    · rw [if_neg hlen] at h
      cases h
      right
      refine ⟨_, rfl, rfl, le_refl 0, by norm_num, le_refl 0, ?_⟩
      dsimp only
      have h15 : (0:ℝ) ≤ 15 := by norm_num
      exact le_trans h15 (le_max_left _ _)

theorem generateOneTrip_vehicles (r : Rng) (fuel i : ℕ) (st : SimState) (k : ℕ)
    (res : SimState × ℕ) (h : generateOneTrip r fuel i st k = some res) :
    res.1.vehicles = st.vehicles ∨
      ∃ w, res.1.vehicles = st.vehicles ++ [w] ∧ w.id = VehicleId.vehicle i ∧
        VehicleInv w := by
  rw [generateOneTrip] at h
  cases hoe : st.edges.get? (jsFloorIdx (r (k + 1)) st.edges.length) with
  | none => rw [hoe] at h; cases h
  | some originEdge =>
    rw [hoe] at h
    dsimp only at h
    cases hpf : pickFarEdgeAux st originEdge 2000 r fuel (k + 2) with
    | none => rw [hpf] at h; cases h
    | some pf =>
      rw [hpf] at h
      dsimp only at h
      by_cases hsame : originEdge.id = pf.1.id
      · rw [if_pos hsame] at h
        exact finishTrip_vehicles r i originEdge (r k * 2400) [originEdge.id] st pf.2 res h
      · rw [if_neg hsame] at h
        cases hfr : findSimpleRoute r fuel st originEdge.id pf.1.id pf.2 with
        | none => rw [hfr] at h; cases h
        | some fr =>
          rw [hfr] at h
          dsimp only at h
          have hveh : fr.2.1.vehicles = st.vehicles :=
            findSimpleRoute_vehicles r fuel st originEdge.id pf.1.id pf.2 fr hfr
          rcases finishTrip_vehicles r i originEdge (r k * 2400)
              (if 0 < fr.1.length then fr.1 else [originEdge.id]) fr.2.1 fr.2.2 res h with
            h1 | ⟨w, hw1, hw2, hw3⟩
          · left
            rw [h1, hveh]
          · right
            exact ⟨w, by rw [hw1, hveh], hw2, hw3⟩

theorem generateVehicleTripsAux_vehicles (r : Rng) (fuel : ℕ) :
    ∀ (n i : ℕ) (st : SimState) (k : ℕ) (res : SimState × ℕ),
      generateVehicleTripsAux r fuel i n st k = some res →
      ∃ tail, res.1.vehicles = st.vehicles ++ tail ∧
        (∀ w ∈ tail, VehicleInv w ∧ ∃ j, i ≤ j ∧ w.id = VehicleId.vehicle j) ∧
        (tail.map SUMOVehicle.id).Nodup := by
  intro n
  induction n with
  | zero =>
    intro i st k res h
    rw [generateVehicleTripsAux] at h
    cases h
    exact ⟨[], by simp, by simp, by simp⟩
  | succ n ihn =>
    intro i st k res h
    rw [generateVehicleTripsAux] at h
    cases hone : generateOneTrip r fuel i st k with
    | none => rw [hone] at h; cases h
    | some one =>
      obtain ⟨st1, k1⟩ := one
      rw [hone] at h
      dsimp only at h
      obtain ⟨tail, htail, hprops, hnodup⟩ := ihn (i + 1) st1 k1 res h
      rcases generateOneTrip_vehicles r fuel i st k (st1, k1) hone with h1 | ⟨w, hw1, hw2, hw3⟩
      · refine ⟨tail, by rw [htail]; dsimp only at h1 ⊢; rw [h1], ?_, hnodup⟩
        intro w hw
        obtain ⟨hinv, j, hj, hid⟩ := hprops w hw
        exact ⟨hinv, j, by omega, hid⟩
      · refine ⟨w :: tail,
          by rw [htail]; dsimp only at hw1 ⊢;
             rw [hw1, List.append_assoc, List.singleton_append], ?_, ?_⟩
        · intro u hu
          rcases List.mem_cons.mp hu with rfl | hu'
          · exact ⟨hw3, i, le_refl i, hw2⟩
          · obtain ⟨hinv, j, hj, hid⟩ := hprops u hu'
            exact ⟨hinv, j, by omega, hid⟩
        · rw [List.map_cons, List.nodup_cons]
          refine ⟨?_, hnodup⟩
          intro hmem
          rw [List.mem_map] at hmem
          obtain ⟨u, hu, hid⟩ := hmem
          obtain ⟨_, j, hj, hidu⟩ := hprops u hu
          rw [hidu, hw2] at hid
          cases hid
          omega

theorem addFacilityTrafficAux_state (r : Rng) (fuel : ℕ) (nearbyEdges : List SUMOEdge) :
    ∀ (n i : ℕ) (st : SimState) (k : ℕ) (res : SimState × ℕ),
      addFacilityTrafficAux r fuel nearbyEdges i n st k = some res →
      ∃ vs rc, res.1 = { st with vehicles := vs, routeCache := rc } := by
  intro n
  induction n with
  | zero =>
    intro i st k res h
    rw [addFacilityTrafficAux] at h
    cases h
    exact ⟨st.vehicles, st.routeCache, rfl⟩
  | succ n ih =>
    intro i st k res h
    rw [addFacilityTrafficAux] at h
    cases hne : nearbyEdges.get? (jsFloorIdx (r k) nearbyEdges.length) with
    | none => rw [hne] at h; cases h
    | some outEdge =>
      rw [hne] at h
      dsimp only at h
      cases hpf : pickFarEdgeAux st outEdge 1000 r fuel (k + 1) with
      | none => rw [hpf] at h; cases h
      | some pf =>
        rw [hpf] at h
        dsimp only at h
        cases hfr : findSimpleRoute r fuel st outEdge.id pf.1.id pf.2 with
        | none => rw [hfr] at h; cases h
        | some fr =>
          rw [hfr] at h
          dsimp only at h
          obtain ⟨rc0, hrc0⟩ := findSimpleRoute_state r fuel st outEdge.id pf.1.id pf.2 fr hfr
          by_cases hlen : (buildRouteGeometry fr.2.1 fr.1).1.length < 2
          · rw [if_pos hlen] at h
            cases h
          · rw [if_neg hlen] at h
            obtain ⟨vs, rc, hres⟩ := ih (i + 1) _ _ res h
            refine ⟨vs, rc, ?_⟩
            rw [hres, hrc0]

theorem addFacilityTraffic_state (r : Rng) (fuel : ℕ) (st : SimState) (c : Coord)
    (additionalVehicles : ℤ) (k : ℕ) (res : SimState × ℕ)
    (h : addFacilityTraffic st c additionalVehicles r k fuel = some res) :
    ∃ vs rc, res.1 = { st with vehicles := vs, routeCache := rc } := by
  rw [addFacilityTraffic] at h
  try dsimp only at h
  by_cases hne : (findNearbyEdges st c 0.2).isEmpty
  · rw [if_pos hne] at h
    cases h
    exact ⟨st.vehicles, st.routeCache, rfl⟩
  · rw [if_neg hne] at h
    exact addFacilityTrafficAux_state r fuel _ _ 0 st k res h

/-- The C2 edge bounds. -/
def EdgeBounds (e : SUMOEdge) : Prop := 5 ≤ e.speed ∧ 10 ≤ e.capacity

theorem applyConstructionAux_reduced_bounds (r : Rng) :
    ∀ (nearby : List SUMOEdge) (st : SimState) (affected : List String) (k : ℕ),
      (∀ e ∈ st.edges, EdgeBounds e) →
      ∀ e ∈ (applyConstructionAux r nearby st affected k).1.edges, EdgeBounds e := by
  intro nearby
  induction nearby with
  | nil => intro st affected k h; exact h
  | cons edge rest ih =>
    intro st affected k h
    rw [applyConstructionAux]
    by_cases hmem : edge.id ∈ affected
    · rw [if_pos hmem]
      exact ih st affected k h
    · rw [if_neg hmem]
      apply ih
      intro e he
      rw [List.mem_map] at he
      obtain ⟨e0, he0, rfl⟩ := he
      by_cases hid : (e0.id == edge.id) = true
      · rw [if_pos hid]
        constructor
        · dsimp only
          by_cases hr : r k < 0.05
          · rw [if_pos hr]
          · rw [if_neg hr]
            exact le_max_left _ _
        · dsimp only
          by_cases hr : r k < 0.05
          · rw [if_pos hr]
          · rw [if_neg hr]
            have h50 : (10:ℝ) ≤ 50 := by norm_num
            exact le_trans h50 (le_max_left _ _)
      · rw [if_neg hid]
        exact h e0 he0

theorem applyConstructionAux_affected (r : Rng) :
    ∀ (nearby : List SUMOEdge) (st : SimState) (affected : List String) (k : ℕ),
      (∀ e ∈ st.edges, e.id ∈ affected → EdgeBounds e) →
      ((st.constructionLogs.map ConstructionLog.edgeId).Nodup) →
      (∀ id ∈ st.constructionLogs.map ConstructionLog.edgeId, id ∈ affected) →
      (∀ l ∈ st.constructionLogs, 5 ≤ l.reducedSpeed) →
      (∀ e ∈ (applyConstructionAux r nearby st affected k).1.edges,
          e.id ∈ (applyConstructionAux r nearby st affected k).2.1 → EdgeBounds e) ∧
      (((applyConstructionAux r nearby st affected k).1.constructionLogs.map
          ConstructionLog.edgeId).Nodup) ∧
      (∀ id ∈ (applyConstructionAux r nearby st affected k).1.constructionLogs.map
          ConstructionLog.edgeId, id ∈ (applyConstructionAux r nearby st affected k).2.1) ∧
      (∀ l ∈ (applyConstructionAux r nearby st affected k).1.constructionLogs,
          5 ≤ l.reducedSpeed) := by
  intro nearby
  induction nearby with
  | nil =>
    intro st affected k h1 h2 h3 h4
    exact ⟨h1, h2, h3, h4⟩
  | cons edge rest ih =>
    intro st affected k h1 h2 h3 h4
    rw [applyConstructionAux]
    by_cases hmem : edge.id ∈ affected
    · rw [if_pos hmem]
      exact ih st affected k h1 h2 h3 h4
    · rw [if_neg hmem]
      apply ih
      · intro e he hid
        rw [List.mem_map] at he
        obtain ⟨e0, he0, rfl⟩ := he
        by_cases hbeq : (e0.id == edge.id) = true
        · rw [if_pos hbeq]
          constructor
          · dsimp only
            by_cases hr : r k < 0.05
            · rw [if_pos hr]
            · rw [if_neg hr]
              exact le_max_left _ _
          · dsimp only
            by_cases hr : r k < 0.05
            · rw [if_pos hr]
            · rw [if_neg hr]
              have h50 : (10:ℝ) ≤ 50 := by norm_num
              exact le_trans h50 (le_max_left _ _)
        · rw [if_neg hbeq]
          rw [if_neg hbeq] at hid
          rcases List.mem_cons.mp hid with heq | hid'
          · exact absurd (beq_iff_eq.mpr heq) hbeq
          · exact h1 e0 he0 hid'
      · dsimp only
        rw [List.map_append, List.map_cons, List.map_nil]
        rw [List.nodup_append]
        refine ⟨h2, List.nodup_singleton _, ?_⟩
        intro a ha hb
        rw [List.mem_singleton] at hb
        subst hb
        exact hmem (h3 edge.id ha)
      · dsimp only
        intro id hid
        rw [List.map_append, List.mem_append] at hid
        rcases hid with hid | hid
        · exact List.mem_cons_of_mem _ (h3 id hid)
        · rw [List.map_cons, List.map_nil, List.mem_singleton] at hid
          subst hid
          exact List.mem_cons_self _ _
      · dsimp only
        intro l hl
        rw [List.mem_append] at hl
        rcases hl with hl | hl
        · exact h4 l hl
        · rw [List.mem_singleton] at hl
          subst hl
          dsimp only
          by_cases hr : r k < 0.05
          · rw [if_pos hr]
          · rw [if_neg hr]
            exact le_max_left _ _

theorem applyMarkerImpactsAux_affected (r : Rng) (fuel : ℕ) :
    ∀ (markers : List Marker) (st : SimState) (affected : List String)
      (processed : List (ℤ × ℤ)) (k : ℕ) (res : SimState × List String × ℕ),
      applyMarkerImpactsAux r fuel markers st affected processed k = some res →
      (∀ e ∈ st.edges, e.id ∈ affected → EdgeBounds e) →
      ((st.constructionLogs.map ConstructionLog.edgeId).Nodup) →
      (∀ id ∈ st.constructionLogs.map ConstructionLog.edgeId, id ∈ affected) →
      (∀ l ∈ st.constructionLogs, 5 ≤ l.reducedSpeed) →
      (∀ e ∈ res.1.edges, e.id ∈ res.2.1 → EdgeBounds e) ∧
      ((res.1.constructionLogs.map ConstructionLog.edgeId).Nodup) ∧
      (∀ id ∈ res.1.constructionLogs.map ConstructionLog.edgeId, id ∈ res.2.1) ∧
      (∀ l ∈ res.1.constructionLogs, 5 ≤ l.reducedSpeed) := by
  intro markers
  induction markers with
  | nil =>
    intro st affected processed k res h h1 h2 h3 h4
    rw [applyMarkerImpactsAux] at h
    cases h
    exact ⟨h1, h2, h3, h4⟩
  | cons m rest ih =>
    intro st affected processed k res h h1 h2 h3 h4
    rw [applyMarkerImpactsAux] at h
    by_cases hc : m.type = "construction"
    · rw [if_pos hc] at h
      obtain ⟨g1, g2, g3, g4⟩ := applyConstructionAux_affected r
        (findNearbyEdges st m.coordinates 0.5) st affected k h1 h2 h3 h4
      exact ih _ _ _ _ res h g1 g2 g3 g4
    · rw [if_neg hc] at h
      by_cases hf : m.type = "facility"
      · rw [if_pos hf] at h
        by_cases hk : (toFixed6Key m.coordinates.lng, toFixed6Key m.coordinates.lat) ∈ processed
        · rw [if_pos hk] at h
          exact ih _ _ _ _ res h h1 h2 h3 h4
        · rw [if_neg hk] at h
          cases hadd : addFacilityTraffic st m.coordinates
              (calculateFacilityTrafficGeneration st) r k fuel with
          | none => rw [hadd] at h; cases h
          | some add =>
            rw [hadd] at h
            obtain ⟨vs, rc, hst1⟩ := addFacilityTraffic_state r fuel st m.coordinates
              (calculateFacilityTrafficGeneration st) k add hadd
            apply ih _ _ _ _ res h
            · rw [hst1]; exact h1
            · rw [hst1]; exact h2
            · rw [hst1]; exact h3
            · rw [hst1]; exact h4
      · rw [if_neg hf] at h
        exact ih _ _ _ _ res h h1 h2 h3 h4

theorem applyMarkerImpactsAux_bounds (r : Rng) (fuel : ℕ) :
    ∀ (markers : List Marker) (st : SimState) (affected : List String)
      (processed : List (ℤ × ℤ)) (k : ℕ) (res : SimState × List String × ℕ),
      applyMarkerImpactsAux r fuel markers st affected processed k = some res →
      (∀ e ∈ st.edges, EdgeBounds e) → ∀ e ∈ res.1.edges, EdgeBounds e := by
  intro markers
  induction markers with
  | nil =>
    intro st affected processed k res h hb
    rw [applyMarkerImpactsAux] at h
    cases h
    exact hb
  | cons m rest ih =>
    intro st affected processed k res h hb
    rw [applyMarkerImpactsAux] at h
    by_cases hc : m.type = "construction"
    · rw [if_pos hc] at h
      exact ih _ _ _ _ res h (applyConstructionAux_reduced_bounds r
        (findNearbyEdges st m.coordinates 0.5) st affected k hb)
    · rw [if_neg hc] at h
      by_cases hf : m.type = "facility"
      · rw [if_pos hf] at h
        by_cases hk : (toFixed6Key m.coordinates.lng, toFixed6Key m.coordinates.lat) ∈ processed
        · rw [if_pos hk] at h
          exact ih _ _ _ _ res h hb
        · rw [if_neg hk] at h
          cases hadd : addFacilityTraffic st m.coordinates
              (calculateFacilityTrafficGeneration st) r k fuel with
          | none => rw [hadd] at h; cases h
          | some add =>
            rw [hadd] at h
            obtain ⟨vs, rc, hst1⟩ := addFacilityTraffic_state r fuel st m.coordinates
              (calculateFacilityTrafficGeneration st) k add hadd
            apply ih _ _ _ _ res h
            rw [hst1]
            exact hb
      · rw [if_neg hf] at h
        exact ih _ _ _ _ res h hb

theorem runMicrosimulationAux_inv (d : ℕ) (fuel : ℕ) :
    ∀ (st : SimState) (t : ℕ) (td te cl ss : ℝ) (sc : ℕ), StateInv st →
      ∀ v ∈ (runMicrosimulationAux d fuel st t td te cl ss sc).1.vehicles, VehicleInv v := by
  induction fuel with
  | zero =>
    intro st t td te cl ss sc h
    exact h
  | succ fuel ih =>
    intro st t td te cl ss sc h
    rw [runMicrosimulationAux]
    by_cases ht : t < d * 60
    · rw [if_pos ht]
      dsimp only
      simp only [processVehicles]
      apply ih
      exact processVehiclesAux_inv _ _ _ { st with simulationTime := t } 0 0 0
        (fun v hv => h v hv)
    · rw [if_neg ht]
      exact h

/- ### Shared concrete instances -/

/-- Congestion-free traffic data for the concrete instances. -/
def trafficDataLow : TrafficData :=
  { incidents := [], flows := [], averageDelay := 0, congestionLevel := CongestionLevel.LOW }

/-- Population data for the concrete instances (density 5 per km², so each
facility generates exactly one trip). -/
def populationData5 : PopulationData :=
  { totalPopulation := 1000, density := 5, workingPopulation := 500,
    estimatedVehicles := 100, peakHourFactor := 0.1 }

/-- An everywhere-one-half draw stream. -/
def rngHalf : Rng := fun _ => 1/2

/-- The single road of claim C4's failing input. -/
def roadC4 : OSMRoad :=
  { id := "r1", nodeIds := [1, 2],
    tags := { highway := some "residential", lanes := none },
    geometry := [⟨0, 0⟩, ⟨0.05, 0⟩] }

/-- Claim C4's failing input: a network with a single edge, so the distant
pick can never leave its redraw loop. -/
def netC4 : NetworkData := { nodes := [1, 2], roads := [roadC4] }

/-- The engine state built on the single-edge network. -/
def stC4 : SimState := initSimState netC4 trafficDataLow populationData5

theorem stC4_edges : stC4.edges = [edgeOfRoad roadC4] := rfl

/- ### Claims C1, C3, C4, C5, C6, C7 -/

/-- Claim C1: every vehicle created by `generateVehicleTrips` starts with
`current_edge_progress = 0 ∈ [0, 0.95]`, `distance_traveled = 0 ≥ 0` and
`speed ≥ 0`; every `updateVehicle` call preserves
`current_edge_progress ∈ [0, 0.95]`, keeps `distance_traveled` nonnegative
and non-decreasing, and keeps `speed ≥ 0`; consequently every vehicle of the
final microsimulation state satisfies the invariant. -/
theorem claim_C1_vehicle_invariants :
    (∀ (st : SimState) (count : ℕ) (r : Rng) (k fuel : ℕ) (res : SimState × ℕ),
        generateVehicleTrips st count r k fuel = some res → StateInv res.1) ∧
    (∀ (st : SimState) (v : SUMOVehicle) (t step : ℕ), VehicleInv v →
        VehicleInv (updateVehicle st v t step) ∧
          v.distanceTraveled ≤ (updateVehicle st v t step).distanceTraveled) ∧
    (∀ (st : SimState) (d : ℕ), StateInv st →
        ∀ v ∈ (runMicrosimulation st d).1.vehicles, VehicleInv v) := by
  refine ⟨?_, updateVehicle_inv, ?_⟩
  · intro st count r k fuel res h
    rw [generateVehicleTrips] at h
    obtain ⟨tail, htail, hprops, _⟩ :=
      generateVehicleTripsAux_vehicles r fuel count 0 { st with vehicles := [] } k res h
    intro v hv
    rw [htail] at hv
    simp only [List.nil_append] at hv
    exact (hprops v hv).1
  · intro st d h
    exact runMicrosimulationAux_inv d (d * 60 + 1) st 0 0 0 0 0 0 h

/-- A concrete freshly-created vehicle used by the witnesses. -/
def vWitness : SUMOVehicle :=
  { id := VehicleId.vehicle 0, route := ["r1"], departTime := 0, arrivalTime := none,
    speed := 30, emissions := 0, routeProgress := 0, routeCoordinates := [],
    distanceTraveled := 0, currentEdgeProgress := 0, totalRouteLength := 1000,
    line := [], lineLength := 0 }

theorem vWitness_inv : VehicleInv vWitness := by
  refine ⟨le_refl 0, by norm_num [vWitness], le_refl 0, by norm_num [vWitness]⟩

theorem claim_C1_witness :
    VehicleInv vWitness ∧
      (VehicleInv (updateVehicle stC4 vWitness 0 10) ∧
        vWitness.distanceTraveled ≤ (updateVehicle stC4 vWitness 0 10).distanceTraveled) :=
  ⟨vWitness_inv, claim_C1_vehicle_invariants.2.1 stC4 vWitness 0 10 vWitness_inv⟩

/-- The claim-side congestion multiplier of C6. -/
def trafficMultiplierSpec : CongestionLevel → ℝ
  | CongestionLevel.SEVERE => 1.3
  | CongestionLevel.HIGH => 1.2
  | CongestionLevel.MEDIUM => 1.1
  | CongestionLevel.LOW => 1.0

/-- Claim C6: `generateVehicleDemand` returns
`min(round(estimated_vehicles × peak_hour_factor × m), 500)` with
`m = 1.3 / 1.2 / 1.1 / 1.0` for SEVERE / HIGH / MEDIUM / LOW congestion. -/
theorem claim_C6_demand (st : SimState) :
    generateVehicleDemand st =
      min (jsRound (st.populationData.estimatedVehicles * st.populationData.peakHourFactor *
        trafficMultiplierSpec st.trafficData.congestionLevel)) 500 := by
  rw [generateVehicleDemand]
  cases h : st.trafficData.congestionLevel <;>
    simp [h, trafficMultiplierSpec]

/-- Claim C4 (code_bug evidence): on a network whose only edge is the
origin itself, `pickFarEdge` repeats its redraw loop forever — for every
draw stream, every cursor and every fuel bound it yields no result, while
the spec requires implementations to bound retries. -/
theorem claim_C4_pickFarEdge_unbounded (r : Rng) (fuel k : ℕ) :
    pickFarEdgeAux stC4 (edgeOfRoad roadC4) 2000 r fuel k = none := by
  induction fuel generalizing k with
  | zero => rfl
  | succ fuel ih =>
    rw [pickFarEdgeAux]
    have hcond :
        ((stC4.edges.get? (jsFloorIdx (r k) stC4.edges.length)).getD defaultEdge).id
            = (edgeOfRoad roadC4).id ∨
          haversineDistance (firstGeomPoint stC4.network (edgeOfRoad roadC4).id)
            (firstGeomPoint stC4.network
              ((stC4.edges.get? (jsFloorIdx (r k) stC4.edges.length)).getD defaultEdge).id)
            < 2000 := by
      rcases hn : jsFloorIdx (r k) stC4.edges.length with _ | m
      · left
        rw [stC4_edges]
        rfl
      · right
        have hget : stC4.edges.get? (m + 1) = none := by
          rw [stC4_edges]
          rfl
        rw [hget]
        have h1 : firstGeomPoint stC4.network (edgeOfRoad roadC4).id = ⟨0, 0⟩ := rfl
        have h2 : firstGeomPoint stC4.network ((Option.getD none defaultEdge).id) = ⟨0, 0⟩ := rfl
        rw [h1, h2, haversineDistance_self]
        norm_num
    rw [if_pos hcond]
    exact ih (k + 1)

/-- Claim C5: `calculateCongestionLength` returns the sum in kilometers of
the lengths of exactly those edges whose utilization (active route-head
vehicles divided by `capacity/3600`) exceeds 0.7, and the final
`congestionLength` of the microsimulation equals the sum of the samples
taken at the visited times divisible by 300 s, divided by
`duration_minutes / 5`. -/
theorem claim_C5_congestion :
    (∀ st : SimState, calculateCongestionLength st = congestedLengthSpec st) ∧
    (∀ (st : SimState) (d : ℕ), d ≠ 0 → StateInv st →
        (runMicrosimulation st d).1.congestionLength =
          specCongestionSamples st d / ((d : ℝ) / 5)) := by
  refine ⟨calculateCongestionLength_spec, ?_⟩
  intro st d hd hinv
  have h := (specLoopAux_spec d hd (d * 60 + 1) st 0 0 0 0 0 0 0 0 hinv).2
  rw [specCongestionSamples, runMicrosimulation]
  rw [h]
  have hd5 : ((d : ℝ) / 5) ≠ 0 := by
    have h0 : (0 : ℝ) < (d : ℝ) := by exact_mod_cast Nat.pos_of_ne_zero hd
    positivity
  field_simp

theorem claim_C5_witness :
    (1 : ℕ) ≠ 0 ∧ StateInv stC4 ∧
      (runMicrosimulation stC4 1).1.congestionLength =
        specCongestionSamples stC4 1 / (((1 : ℕ) : ℝ) / 5) := by
  have hinv : StateInv stC4 := by
    intro v hv
    cases hv
  exact ⟨one_ne_zero, hinv, claim_C5_congestion.2 stC4 1 one_ne_zero hinv⟩

/-- Claim C3: each emissions sample equals
`emission_factor(speed) × (speed/3600)` grams (the accumulator stores that
figure divided by 1000), with the factor 120 g/km scaled by 1.6 / 1.2 / 1.3
/ 1.0 according to the speed band; and the reported `co2_emissions` number
equals the accumulated gram total of the per-tick samples (taken at the
visited times divisible by 10 s), subjected to the shared ±5% variance draw
and rounding. -/
theorem claim_C3_emissions :
    (∀ v : SUMOVehicle, 0 ≤ v.speed →
        1000 * calculateVehicleEmissions v = emissionFactorSpec v.speed * (v.speed / 3600)) ∧
    (∀ (st : SimState) (d : ℕ) (r : Rng) (k : ℕ), d ≠ 0 → StateInv st →
        (calculateMetrics (runMicrosimulation st d).1 r k).1.co2Emissions =
          jsRound (specEmissionsGrams st d * (1 + (r k - 0.5) * 0.1))) := by
  refine ⟨calculateVehicleEmissions_spec, ?_⟩
  intro st d r k hd hinv
  have h := (specLoopAux_spec d hd (d * 60 + 1) st 0 0 0 0 0 0 0 0 hinv).1
  rw [calculateMetrics]
  dsimp only
  rw [specEmissionsGrams, runMicrosimulation, h]
  norm_num [mul_comm]

theorem claim_C3_witness :
    (0 ≤ vWitness.speed ∧
      1000 * calculateVehicleEmissions vWitness =
        emissionFactorSpec vWitness.speed * (vWitness.speed / 3600)) ∧
    ((1 : ℕ) ≠ 0 ∧ StateInv stC4 ∧
      (calculateMetrics (runMicrosimulation stC4 1).1 rngHalf 0).1.co2Emissions =
        jsRound (specEmissionsGrams stC4 1 * (1 + (rngHalf 0 - 0.5) * 0.1))) := by
  have hs : (0:ℝ) ≤ vWitness.speed := by norm_num [vWitness]
  have hinv : StateInv stC4 := by
    intro v hv
    cases hv
  exact ⟨⟨hs, claim_C3_emissions.1 vWitness hs⟩,
    ⟨one_ne_zero, hinv, claim_C3_emissions.2 stC4 1 rngHalf 0 one_ne_zero hinv⟩⟩

/-- The zero-lanes road of C2's counterexample (`parseInt("0") = 0`, so the
built capacity is `400 × 0 = 0`). -/
def roadC2 : OSMRoad :=
  { id := "z1", nodeIds := [1, 2],
    tags := { highway := some "residential", lanes := some "0" },
    geometry := [⟨0, 0⟩, ⟨0.05, 0⟩] }

/-- The network of C2's counterexample. -/
def netC2 : NetworkData := { nodes := [1, 2], roads := [roadC2] }

/-- The engine state of C2's counterexample. -/
def stC2 : SimState := initSimState netC2 trafficDataLow populationData5

/-- A construction marker 1° (≈111 km) east of the zero-lanes road. -/
def markerC2 : Marker := { type := "construction", coordinates := ⟨1, 0⟩ }

theorem findNearby_markerC2 : findNearbyEdges stC2 markerC2.coordinates 0.5 = [] := by
  have hgt : ¬ (haversineDistance markerC2.coordinates ⟨0, 0⟩ ≤ 0.5 * 1000) := by
    show ¬ (haversineDistance ⟨1, 0⟩ ⟨0, 0⟩ ≤ 0.5 * 1000)
    rw [haversineDistance_comm,
      haversineDistance_equator (by norm_num) (by norm_num)]
    push_neg
    nlinarith [Real.pi_gt_three]
  rw [findNearbyEdges, show stC2.edges = [edgeOfRoad roadC2] from rfl, List.filter_cons]
  rw [show nearbyB stC2 markerC2.coordinates 0.5 (edgeOfRoad roadC2) =
    decide (haversineDistance markerC2.coordinates ⟨0, 0⟩ ≤ 0.5 * 1000) from rfl]
  rw [decide_eq_false hgt]
  simp

/-- Claim C2 counterexample: a road tagged `lanes = "0"` builds an edge of
capacity `400 × 0 = 0`; a construction marker 111 km away leaves it
untouched, so after `applyMarkerImpacts` the road graph contains an edge
with capacity `0 < 10`, refuting "every edge of the road graph satisfies
speed ≥ 5 and capacity ≥ 10". -/
theorem claim_C2_counterexample :
    ¬ (∀ res : SimState × ℕ,
        applyMarkerImpacts stC2 [markerC2] rngHalf 0 9 = some res →
        ∀ e ∈ res.1.edges, 5 ≤ e.speed ∧ 10 ≤ e.capacity) := by
  intro hall
  have hrun : applyMarkerImpacts stC2 [markerC2] rngHalf 0 9 =
      some ({ stC2 with affectedEdgesSet := [] }, 0) := by
    rw [applyMarkerImpacts, applyMarkerImpactsAux]
    rw [if_pos (show markerC2.type = "construction" from rfl)]
    dsimp only
    rw [findNearby_markerC2]
    rfl
  have hmem : edgeOfRoad roadC2 ∈
      ({ stC2 with affectedEdgesSet := ([] : List String) } : SimState).edges := by
    rw [show ({ stC2 with affectedEdgesSet := ([] : List String) } : SimState).edges =
      [edgeOfRoad roadC2] from rfl]
    exact List.mem_singleton_self _
  have h2 := (hall _ hrun (edgeOfRoad roadC2) hmem).2
  have hcap : (edgeOfRoad roadC2).capacity = 0 := by
    have h0 : (jsParseInt ((roadC2.tags.lanes).getD "1")).getD 1 = 0 := rfl
    show getRoadCapacity (roadC2.tags.highway.getD "unclassified") *
      (((jsParseInt ((roadC2.tags.lanes).getD "1")).getD 1 : ℤ) : ℝ) = 0
    rw [h0]
    norm_num
  rw [hcap] at h2
  norm_num at h2

/-- Claim C2 (amended): after `applyMarkerImpacts`, (a) every edge in the
affected set satisfies speed ≥ 5 and capacity ≥ 10 — whichever branch of the
construction reduction was taken — the logged edge ids are pairwise
distinct (no edge is reduced twice) and every logged reduced speed is ≥ 5;
and (b) if every edge satisfied the bounds beforehand (as `buildRoadNetwork`
guarantees whenever the parsed lanes count is ≥ 1, but not for a `lanes="0"`
tag), then every edge of the graph still satisfies them afterwards. -/
theorem claim_C2_amended :
    (∀ (st : SimState) (markers : List Marker) (r : Rng) (k fuel : ℕ)
        (res : SimState × ℕ),
        applyMarkerImpacts st markers r k fuel = some res →
        st.constructionLogs = [] →
        (∀ e ∈ res.1.edges, e.id ∈ res.1.affectedEdgesSet → EdgeBounds e) ∧
        ((res.1.constructionLogs.map ConstructionLog.edgeId).Nodup) ∧
        (∀ l ∈ res.1.constructionLogs, 5 ≤ l.reducedSpeed)) ∧
    (∀ (st : SimState) (markers : List Marker) (r : Rng) (k fuel : ℕ)
        (res : SimState × ℕ),
        applyMarkerImpacts st markers r k fuel = some res →
        (∀ e ∈ st.edges, EdgeBounds e) → ∀ e ∈ res.1.edges, EdgeBounds e) := by
  constructor
  · intro st markers r k fuel res h hlog
    rw [applyMarkerImpacts] at h
    cases haux : applyMarkerImpactsAux r fuel markers st [] [] k with
    | none => rw [haux] at h; cases h
    | some q =>
      obtain ⟨st1, affected, k1⟩ := q
      rw [haux] at h
      dsimp only at h
      cases h
      obtain ⟨g1, g2, g3, g4⟩ := applyMarkerImpactsAux_affected r fuel markers st [] [] k
        (st1, affected, k1) haux (by intro e he hid; cases hid)
        (by rw [hlog]; exact List.nodup_nil)
        (by rw [hlog]; intro id hid; cases hid)
        (by rw [hlog]; intro l hl; cases hl)
      exact ⟨g1, g2, g4⟩
  · intro st markers r k fuel res h hb
    rw [applyMarkerImpacts] at h
    cases haux : applyMarkerImpactsAux r fuel markers st [] [] k with
    | none => rw [haux] at h; cases h
    | some q =>
      obtain ⟨st1, affected, k1⟩ := q
      rw [haux] at h
      dsimp only at h
      cases h
      exact applyMarkerImpactsAux_bounds r fuel markers st [] [] k
        (st1, affected, k1) haux hb

/-- A construction marker exactly at the C4 road's first geometry point. -/
def markerW : Marker := { type := "construction", coordinates := ⟨0, 0⟩ }

theorem findNearby_markerW :
    findNearbyEdges stC4 markerW.coordinates 0.5 = [edgeOfRoad roadC4] := by
  have hle : haversineDistance markerW.coordinates ⟨0, 0⟩ ≤ 0.5 * 1000 := by
    show haversineDistance ⟨0, 0⟩ ⟨0, 0⟩ ≤ 0.5 * 1000
    rw [haversineDistance_self]
    norm_num
  rw [findNearbyEdges, show stC4.edges = [edgeOfRoad roadC4] from rfl, List.filter_cons]
  rw [show nearbyB stC4 markerW.coordinates 0.5 (edgeOfRoad roadC4) =
    decide (haversineDistance markerW.coordinates ⟨0, 0⟩ ≤ 0.5 * 1000) from rfl]
  rw [decide_eq_true hle]
  simp

/-- The reduced edge of the C2 witness run. -/
def edgeC2W : SUMOEdge :=
  { edgeOfRoad roadC4 with
    speed := max 5 ((edgeOfRoad roadC4).speed * 0.4),
    capacity := max 50 ((edgeOfRoad roadC4).capacity * 0.6) }

/-- The construction log entry of the C2 witness run. -/
def logC2W : ConstructionLog :=
  { edgeId := (edgeOfRoad roadC4).id,
    originalSpeed := (edgeOfRoad roadC4).speed,
    reducedSpeed := max 5 ((edgeOfRoad roadC4).speed * 0.4) }

def resC2W : SimState × ℕ :=
  ({ stC4 with
      edges := [edgeC2W],
      constructionLogs := [logC2W],
      affectedEdgesSet := [(edgeOfRoad roadC4).id] }, 1)

theorem claim_C2_witness :
    (applyMarkerImpacts stC4 [markerW] rngHalf 0 9 = some resC2W ∧
      stC4.constructionLogs = [] ∧
      (∀ e ∈ resC2W.1.edges, e.id ∈ resC2W.1.affectedEdgesSet → EdgeBounds e) ∧
      ((resC2W.1.constructionLogs.map ConstructionLog.edgeId).Nodup) ∧
      (∀ l ∈ resC2W.1.constructionLogs, 5 ≤ l.reducedSpeed)) ∧
    ((∀ e ∈ stC4.edges, EdgeBounds e) ∧ (∀ e ∈ resC2W.1.edges, EdgeBounds e)) := by
  have h05 : ¬ (rngHalf 0 < 0.05) := by norm_num [rngHalf]
  have hrun : applyMarkerImpacts stC4 [markerW] rngHalf 0 9 = some resC2W := by
    rw [applyMarkerImpacts, applyMarkerImpactsAux]
    rw [if_pos (show markerW.type = "construction" from rfl)]
    dsimp only
    rw [findNearby_markerW]
    simp only [applyConstructionAux, applyMarkerImpactsAux, if_neg h05,
      List.not_mem_nil, if_false, show stC4.edges = [edgeOfRoad roadC4] from rfl,
      show stC4.constructionLogs = [] from rfl, List.map_cons, List.map_nil,
      List.nil_append, beq_self_eq_true, if_true, resC2W, edgeC2W, logC2W]
  have hlog : stC4.constructionLogs = [] := rfl
  have hbounds : ∀ e ∈ stC4.edges, EdgeBounds e := by
    intro e he
    rw [show stC4.edges = [edgeOfRoad roadC4] from rfl, List.mem_singleton] at he
    subst he
    constructor
    · rw [show (edgeOfRoad roadC4).speed = 30 from rfl]
      norm_num
    · rw [show (edgeOfRoad roadC4).capacity = 400 * ((1:ℤ):ℝ) from rfl]
      norm_num
  obtain ⟨c1, c2, c3⟩ :=
    claim_C2_amended.1 stC4 [markerW] rngHalf 0 9 resC2W hrun hlog
  exact ⟨⟨hrun, hlog, c1, c2, c3⟩,
    hbounds, claim_C2_amended.2 stC4 [markerW] rngHalf 0 9 resC2W hrun hbounds⟩

/-- Claim C7 counterexample: called with an empty marker array,
`runTrafficSimulation` *does* return a metrics object — the internal
"no markers" throw is caught by the surrounding catch-all, which returns the
fallback estimator's baseline (385 km / 0.8 km / 72 kg at zero variance) —
contradicting "fails with an empty_input error and does not return a
metrics object". -/
theorem claim_C7_counterexample :
    runTrafficSimulationModel [] netC4 trafficDataLow populationData5 60 rngHalf 0 9 =
      some { drivingDistance := 385, congestionLength := 0.8, co2Emissions := 72 } := by
  rw [runTrafficSimulationModel]
  rw [if_pos (show ([] : List Marker).length = 0 from rfl)]
  rw [runFallbackSimulation]
  dsimp only
  norm_num [rngHalf, jsRound, roundTo1]

/-- Claim C7 (amended): with an empty marker array `runTrafficSimulation`
returns the fallback estimator's metrics object (the internal throw is
caught), for every provider payload, duration, draw stream and fuel. -/
theorem claim_C7_amended (net : NetworkData) (traffic : TrafficData) (pop : PopulationData)
    (d : ℕ) (r : Rng) (k fuel : ℕ) :
    runTrafficSimulationModel [] net traffic pop d r k fuel =
      some (runFallbackSimulation [] r k).1 := by
  rw [runTrafficSimulationModel, if_pos (show ([] : List Marker).length = 0 from rfl)]

/- ### Claim C9: densify and polyline length -/

theorem pointAtDistance_zero (p q : Coord) (rest : List Coord) :
    pointAtDistance (p :: q :: rest) 0 = p := by
  rw [pointAtDistance, if_pos (haversineDistance_nonneg p q), zero_div, lerpCoord]
  simp

theorem densify_head (coords : List Coord) (s : ℝ) (h2 : 2 ≤ coords.length) :
    (densify coords s).head? = coords.head? := by
  cases coords with
  | nil => simp at h2
  | cons p t =>
    cases t with
    | nil => simp at h2
    | cons q rest =>
      rw [densify, if_neg (by simp [List.length_cons])]
      rw [List.range_succ_eq_map, List.map_cons, List.head?_cons, List.head?_cons]
      rw [show s / 1000 * ((0 : ℕ) : ℝ) * 1000 = 0 by push_cast; ring]
      rw [pointAtDistance_zero]

/-- Claim C9 (amended): `densify` returns inputs with fewer than two points
unchanged, and on two or more points its first output point is the first
input point; but the densified polyline's length is not, in general, within
1 m of the input polyline's length (see the counterexample with a fold-back
polyline at scale below the step). -/
theorem claim_C9_amended (coords : List Coord) (s : ℝ) :
    (coords.length < 2 → densify coords s = coords) ∧
    (2 ≤ coords.length → (densify coords s).head? = coords.head?) := by
  constructor
  · intro h
    rw [densify, if_pos h]
  · exact densify_head coords s

theorem claim_C9_witness :
    (([⟨0, 0⟩] : List Coord).length < 2 ∧ densify [⟨0, 0⟩] 5 = [⟨0, 0⟩]) ∧
    (2 ≤ ([⟨0, 0⟩, ⟨1, 0⟩] : List Coord).length ∧
      (densify [⟨0, 0⟩, ⟨1, 0⟩] 5).head? = some ⟨0, 0⟩) := by
  refine ⟨⟨by norm_num, (claim_C9_amended [⟨0, 0⟩] 5).1 (by norm_num)⟩,
    by norm_num, ?_⟩
  rw [(claim_C9_amended [⟨0, 0⟩, ⟨1, 0⟩] 5).2 (by norm_num)]
  rfl

/-- The fold-back polyline of C9's counterexample: four legs of ≈111 m
bouncing between two points on the equator. -/
def coordsC9 : List Coord := [⟨0, 0⟩, ⟨1/1000, 0⟩, ⟨0, 0⟩, ⟨1/1000, 0⟩, ⟨0, 0⟩]

/-- One leg of the C9 polyline, in meters (≈111.2 m). -/
def legC9 : ℝ := haversineDistance ⟨0, 0⟩ ⟨1/1000, 0⟩

theorem legC9_eq : legC9 = 6371000 * ((1/1000) * π / 180) := by
  have h := @haversineDistance_equator 0 (1/1000) (by norm_num) (by norm_num)
  rw [legC9, h]
  norm_num

theorem legC9_pos : 0 < legC9 := by
  rw [legC9_eq]
  positivity

theorem legC9_rev : haversineDistance ⟨1/1000, 0⟩ ⟨0, 0⟩ = legC9 := by
  rw [haversineDistance_comm, legC9]

theorem calculateRoadLength_single (p : Coord) : calculateRoadLength [p] = 0 := rfl

theorem coordsC9_length : polylineLength coordsC9 = 4 * legC9 := by
  rw [polylineLength, coordsC9]
  rw [calculateRoadLength, calculateRoadLength, calculateRoadLength, calculateRoadLength,
    calculateRoadLength_single]
  rw [legC9_rev]
  rw [show haversineDistance ⟨0, 0⟩ ⟨1/1000, 0⟩ = legC9 from rfl]
  ring

theorem densify_coordsC9 :
    densify coordsC9 (2 * legC9) = [⟨0, 0⟩, ⟨0, 0⟩, ⟨0, 0⟩] := by
  have hpos := legC9_pos
  rw [densify, if_neg (by rw [coordsC9]; norm_num)]
  have hratio : polylineLength coordsC9 / 1000 / (2 * legC9 / 1000) = (2 : ℝ) := by
    rw [coordsC9_length]
    field_simp
    ring
  rw [hratio]
  rw [show ⌈(2:ℝ)⌉₊ = 2 by
    rw [show (2:ℝ) = ((2:ℕ):ℝ) by norm_num, Nat.ceil_natCast]]
  rw [show List.range (2 + 1) = [0, 1, 2] from rfl]
  rw [List.map_cons, List.map_cons, List.map_cons, List.map_nil]
  have h0 : pointAtDistance coordsC9 (2 * legC9 / 1000 * ((0:ℕ):ℝ) * 1000) = ⟨0, 0⟩ := by
    rw [show 2 * legC9 / 1000 * ((0:ℕ):ℝ) * 1000 = 0 by push_cast; ring]
    rw [coordsC9]
    exact pointAtDistance_zero _ _ _
  have hleg : haversineDistance ⟨0, 0⟩ ⟨1/1000, 0⟩ = legC9 := rfl
  have h1 : pointAtDistance coordsC9 (2 * legC9 / 1000 * ((1:ℕ):ℝ) * 1000) = ⟨0, 0⟩ := by
    rw [show 2 * legC9 / 1000 * ((1:ℕ):ℝ) * 1000 = 2 * legC9 by push_cast; ring]
    rw [coordsC9, pointAtDistance, pointAtDistance]
    simp only [hleg, legC9_rev]
    rw [if_neg (by push_neg; linarith), if_pos (by linarith)]
    rw [show 2 * legC9 - legC9 = legC9 by ring, div_self (ne_of_gt hpos), lerpCoord]
    norm_num
  have h2 : pointAtDistance coordsC9 (2 * legC9 / 1000 * ((2:ℕ):ℝ) * 1000) = ⟨0, 0⟩ := by
    rw [show 2 * legC9 / 1000 * ((2:ℕ):ℝ) * 1000 = 4 * legC9 by push_cast; ring]
    rw [coordsC9, pointAtDistance, pointAtDistance, pointAtDistance, pointAtDistance]
    simp only [hleg, legC9_rev]
    rw [if_neg (by push_neg; linarith), if_neg (by push_neg; linarith),
      if_neg (by push_neg; linarith), if_pos (by linarith)]
    rw [show 4 * legC9 - legC9 - legC9 - legC9 = legC9 by ring, div_self (ne_of_gt hpos),
      lerpCoord]
    norm_num
  rw [h0, h1, h2]

/-- Claim C9 counterexample: on the fold-back polyline `coordsC9` (≥ 2
points) with the positive step `2·legC9` (≈222 m), the densified polyline
collapses to a single point, so its polyline length differs from the input's
(≈444.8 m) by far more than 1 m — refuting the 1 m round-trip identity. -/
theorem claim_C9_counterexample :
    2 ≤ coordsC9.length ∧ 0 < 2 * legC9 ∧
      1 < |polylineLength (densify coordsC9 (2 * legC9)) - polylineLength coordsC9| := by
  refine ⟨by rw [coordsC9]; norm_num, by linarith [legC9_pos], ?_⟩
  rw [densify_coordsC9, coordsC9_length]
  rw [show polylineLength [⟨0, 0⟩, ⟨0, 0⟩, ⟨0, 0⟩] = 0 by
    rw [polylineLength, calculateRoadLength, calculateRoadLength,
      calculateRoadLength_single, haversineDistance_self]
    ring]
  rw [abs_of_nonpos (by linarith [legC9_pos])]
  have h4 : 4 * legC9 = 6371000 * 4 * ((1/1000) * π / 180) := by
    rw [legC9_eq]; ring
  rw [h4]
  nlinarith [Real.pi_gt_three]

/- ### Claim C10: facility-trip id collisions -/

/-- The first road of the C10 input (equator, first point at the origin). -/
def roadC10a : OSMRoad :=
  { id := "r1", nodeIds := [1, 2],
    tags := { highway := some "residential", lanes := none },
    geometry := [⟨0, 0⟩, ⟨0.05, 0⟩] }

/-- The second road of the C10 input (first point ≈11.1 km east). -/
def roadC10b : OSMRoad :=
  { id := "r2", nodeIds := [3, 4],
    tags := { highway := some "residential", lanes := none },
    geometry := [⟨0.1, 0⟩, ⟨0.15, 0⟩] }

/-- The two-road network of the C10 input. -/
def netC10 : NetworkData := { nodes := [1, 2, 3, 4], roads := [roadC10a, roadC10b] }

/-- The engine state built on the C10 network. -/
def stC10 : SimState := initSimState netC10 trafficDataLow populationData5

/-- The first facility marker, at the first road's first geometry point. -/
def markerF1 : Marker := { type := "facility", coordinates := ⟨0, 0⟩ }

/-- The second facility marker, ≈111 m east of the first (distinct
`toFixed(6)` key, same nearby edge). -/
def markerF2 : Marker := { type := "facility", coordinates := ⟨0.001, 0⟩ }

theorem stC10_edges :
    stC10.edges = [edgeOfRoad roadC10a, edgeOfRoad roadC10b] := rfl

theorem roadC10a_polyLen :
    polylineLength roadC10a.geometry = 6371000 * (0.05 * π / 180) := by
  rw [show roadC10a.geometry = [(⟨0, 0⟩ : Coord), ⟨0.05, 0⟩] from rfl]
  rw [polylineLength, calculateRoadLength, calculateRoadLength_single]
  rw [@haversineDistance_equator 0 0.05 (by norm_num) (by norm_num)]
  norm_num

theorem edgeC10a_length :
    (edgeOfRoad roadC10a).length = 6371000 * (0.05 * π / 180) := by
  show calculateRoadLength roadC10a.geometry = _
  rw [← polylineLength, roadC10a_polyLen]

theorem edgeC10b_length :
    (edgeOfRoad roadC10b).length = 6371000 * (0.05 * π / 180) := by
  show calculateRoadLength roadC10b.geometry = _
  rw [show roadC10b.geometry = [(⟨0.1, 0⟩ : Coord), ⟨0.15, 0⟩] from rfl]
  rw [calculateRoadLength, calculateRoadLength_single]
  rw [@haversineDistance_equator 0.1 0.15 (by norm_num) (by norm_num)]
  norm_num

theorem nearbyB_network (st st' : SimState) (c : Coord) (rad : ℝ) (e : SUMOEdge)
    (h : st.network = st'.network) : nearbyB st c rad e = nearbyB st' c rad e := by
  rw [nearbyB, nearbyB, h]

theorem findNearby_C10_m1 (st : SimState)
    (hE : st.edges = [edgeOfRoad roadC10a, edgeOfRoad roadC10b])
    (hN : st.network = netC10) :
    findNearbyEdges st ⟨0, 0⟩ 0.2 = [edgeOfRoad roadC10a] := by
  have hnet : st.network = stC10.network := by rw [hN]; rfl
  have hnb1 : nearbyB st ⟨0, 0⟩ 0.2 (edgeOfRoad roadC10a) = true := by
    rw [nearbyB_network st stC10 _ _ _ hnet]
    rw [show nearbyB stC10 ⟨0, 0⟩ 0.2 (edgeOfRoad roadC10a) =
      decide (haversineDistance ⟨0, 0⟩ ⟨0, 0⟩ ≤ 0.2 * 1000) from rfl]
    exact decide_eq_true (by rw [haversineDistance_self]; norm_num)
  have hnb2 : nearbyB st ⟨0, 0⟩ 0.2 (edgeOfRoad roadC10b) = false := by
    rw [nearbyB_network st stC10 _ _ _ hnet]
    rw [show nearbyB stC10 ⟨0, 0⟩ 0.2 (edgeOfRoad roadC10b) =
      decide (haversineDistance ⟨0, 0⟩ ⟨0.1, 0⟩ ≤ 0.2 * 1000) from rfl]
    refine decide_eq_false ?_
    rw [@haversineDistance_equator 0 0.1 (by norm_num) (by norm_num)]
    push_neg
    nlinarith [Real.pi_gt_three]
  rw [findNearbyEdges, hE, List.filter_cons, List.filter_cons, List.filter_nil,
    hnb1, hnb2]
  simp

theorem findNearby_C10_m2 (st : SimState)
    (hE : st.edges = [edgeOfRoad roadC10a, edgeOfRoad roadC10b])
    (hN : st.network = netC10) :
    findNearbyEdges st ⟨0.001, 0⟩ 0.2 = [edgeOfRoad roadC10a] := by
  have hnet : st.network = stC10.network := by rw [hN]; rfl
  have hnb1 : nearbyB st ⟨0.001, 0⟩ 0.2 (edgeOfRoad roadC10a) = true := by
    rw [nearbyB_network st stC10 _ _ _ hnet]
    rw [show nearbyB stC10 ⟨0.001, 0⟩ 0.2 (edgeOfRoad roadC10a) =
      decide (haversineDistance ⟨0.001, 0⟩ ⟨0, 0⟩ ≤ 0.2 * 1000) from rfl]
    refine decide_eq_true ?_
    rw [haversineDistance_comm,
      @haversineDistance_equator 0 0.001 (by norm_num) (by norm_num)]
    nlinarith [Real.pi_lt_315, Real.pi_pos]
  have hnb2 : nearbyB st ⟨0.001, 0⟩ 0.2 (edgeOfRoad roadC10b) = false := by
    rw [nearbyB_network st stC10 _ _ _ hnet]
    rw [show nearbyB stC10 ⟨0.001, 0⟩ 0.2 (edgeOfRoad roadC10b) =
      decide (haversineDistance ⟨0.001, 0⟩ ⟨0.1, 0⟩ ≤ 0.2 * 1000) from rfl]
    refine decide_eq_false ?_
    rw [@haversineDistance_equator 0.001 0.1 (by norm_num) (by norm_num)]
    push_neg
    nlinarith [Real.pi_gt_three]
  rw [findNearbyEdges, hE, List.filter_cons, List.filter_cons, List.filter_nil,
    hnb1, hnb2]
  simp

theorem pickFar_C10 (st : SimState)
    (hE : st.edges = [edgeOfRoad roadC10a, edgeOfRoad roadC10b])
    (hN : st.network = netC10) (k : ℕ) :
    pickFarEdgeAux st (edgeOfRoad roadC10a) 1000 rngHalf 9 k =
      some (edgeOfRoad roadC10b, k + 1) := by
  have hidx : jsFloorIdx (rngHalf k)
      ([edgeOfRoad roadC10a, edgeOfRoad roadC10b] : List SUMOEdge).length = 1 := by
    rw [show ([edgeOfRoad roadC10a, edgeOfRoad roadC10b] : List SUMOEdge).length = 2
      from rfl, jsFloorIdx, show rngHalf k = 1/2 from rfl]
    norm_num
  rw [show (9:ℕ) = 8 + 1 from rfl, pickFarEdgeAux, hE, hidx]
  rw [show (([edgeOfRoad roadC10a, edgeOfRoad roadC10b] : List SUMOEdge).get? 1).getD
    defaultEdge = edgeOfRoad roadC10b from rfl]
  rw [hN]
  rw [show firstGeomPoint netC10 (edgeOfRoad roadC10a).id = ⟨0, 0⟩ from rfl,
    show firstGeomPoint netC10 (edgeOfRoad roadC10b).id = ⟨0.1, 0⟩ from rfl]
  rw [if_neg ?hc]
  case hc =>
    rintro (hid | hdist)
    · exact absurd hid (by decide)
    · rw [@haversineDistance_equator 0 0.1 (by norm_num) (by norm_num)] at hdist
      nlinarith [Real.pi_gt_three]

theorem walk_C10 (st : SimState)
    (hE : st.edges = [edgeOfRoad roadC10a, edgeOfRoad roadC10b])
    (hN : st.network = netC10) (m : ℝ)
    (hm1 : (edgeOfRoad roadC10a).length < m)
    (hm2 : ¬ ((edgeOfRoad roadC10a).length + (edgeOfRoad roadC10b).length < m)) (k : ℕ) :
    routeWalkAux st m rngHalf 9 200 ["r1"] ["r1"] "2" (edgeOfRoad roadC10a).length k =
      some (["r1", "r2"], (edgeOfRoad roadC10b).toNode,
        (edgeOfRoad roadC10a).length + (edgeOfRoad roadC10b).length, k + 1) := by
  have hfrom : edgesFrom st.edges "2" = [] := by rw [hE]; rfl
  rw [show (200:ℕ) = 199 + 1 from rfl, routeWalkAux]
  rw [if_pos ⟨hm1, by norm_num⟩]
  rw [hfrom, List.filter_nil]
  rw [if_pos (show (List.isEmpty ([] : List SUMOEdge)) = true from rfl)]
  rw [show (["r1"] : List String).getLast? = some "r1" from rfl]
  dsimp only
  have hf1 : edgeFind st.edges "r1" = some (edgeOfRoad roadC10a) := by rw [hE]; rfl
  rw [hf1]
  dsimp only
  rw [pickFar_C10 st hE hN k]
  dsimp only
  rw [show (edgeOfRoad roadC10b).id = "r2" from rfl]
  rw [show (["r1"] : List String) ++ ["r2"] = ["r1", "r2"] from rfl]
  rw [show (199:ℕ) = 198 + 1 from rfl, routeWalkAux]
  rw [if_neg (fun h => hm2 h.1)]

theorem findRoute_C10 (st : SimState)
    (hE : st.edges = [edgeOfRoad roadC10a, edgeOfRoad roadC10b])
    (hN : st.network = netC10)
    (hcache : st.routeCache.lookup ("r1", "r2") = none) (k : ℕ) :
    findSimpleRoute rngHalf 9 st "r1" "r2" k =
      some (["r1", "r2", "r2"],
        { st with routeCache := (("r1", "r2"), ["r1", "r2", "r2"]) :: st.routeCache },
        k + 2) := by
  have hL : (edgeOfRoad roadC10a).length = 6371000 * (0.05 * π / 180) := edgeC10a_length
  have hL' : (edgeOfRoad roadC10b).length = 6371000 * (0.05 * π / 180) := edgeC10b_length
  have hm1 : (edgeOfRoad roadC10a).length < 4000 + rngHalf k * 4000 := by
    rw [hL, show rngHalf k = 1/2 from rfl]
    nlinarith [Real.pi_lt_315]
  have hm2 : ¬ ((edgeOfRoad roadC10a).length + (edgeOfRoad roadC10b).length <
      4000 + rngHalf k * 4000) := by
    rw [hL, hL', show rngHalf k = 1/2 from rfl]
    push_neg
    nlinarith [Real.pi_gt_three]
  rw [show (9:ℕ) = 8 + 1 from rfl, findSimpleRoute, hcache]
  have hf1 : edgeFind st.edges "r1" = some (edgeOfRoad roadC10a) := by rw [hE]; rfl
  have hf2 : edgeFind st.edges "r2" = some (edgeOfRoad roadC10b) := by rw [hE]; rfl
  rw [hf1, hf2]
  dsimp only
  rw [show (edgeOfRoad roadC10a).toNode = "2" from rfl]
  rw [show (8:ℕ) + 1 = 9 from rfl]
  rw [walk_C10 st hE hN _ hm1 hm2 (k + 1)]
  dsimp only
  rw [show (edgeOfRoad roadC10b).toNode = "4" from rfl,
    show (edgeOfRoad roadC10b).fromNode = "3" from rfl]
  have h43 : ("4" : String) ≠ "3" := by decide
  rw [if_pos h43, if_pos h43]
  rw [if_neg (show ¬ ((edgeOfRoad roadC10a).length + (edgeOfRoad roadC10b).length +
      (edgeOfRoad roadC10b).length < 4000 + rngHalf k * 4000) from by
    rw [hL, hL', show rngHalf k = 1/2 from rfl]
    push_neg
    nlinarith [Real.pi_gt_three])]
  rw [show (["r1", "r2"] : List String) ++ ["r2"] = ["r1", "r2", "r2"] from rfl]

theorem foldl_fst_prefix {α β : Type} (f : (List α × β) → String → (List α × β))
    (hf : ∀ acc e, ∃ u, (f acc e).1 = acc.1 ++ u) :
    ∀ (route : List String) (acc : List α × β),
      ∃ t, (List.foldl f acc route).1 = acc.1 ++ t := by
  intro route
  induction route with
  | nil => intro acc; exact ⟨[], by simp⟩
  | cons e rest ih =>
    intro acc
    rw [List.foldl_cons]
    obtain ⟨t, ht⟩ := ih (f acc e)
    obtain ⟨u, hu⟩ := hf acc e
    exact ⟨u ++ t, by rw [ht, hu, List.append_assoc]⟩

theorem densify_C10a_len : 2 ≤ (densify roadC10a.geometry 5).length := by
  rw [densify, if_neg (by decide)]
  rw [List.length_map, List.length_range]
  have h1 : 0 < ⌈polylineLength roadC10a.geometry / 1000 / ((5:ℝ) / 1000)⌉₊ := by
    rw [Nat.ceil_pos, roadC10a_polyLen]
    positivity
  omega

theorem geomLen_C10 (st : SimState) (hN : st.network = netC10) (route : List String) :
    2 ≤ (buildRouteGeometry st ("r1" :: route)).1.length := by
  rw [buildRouteGeometry, hN, List.foldl_cons]
  have hf : ∀ (acc : List Coord × ℝ) (e : String),
      ∃ u, ((fun (acc : List Coord × ℝ) (edgeId : String) =>
        match netC10.roads.find? (fun road : OSMRoad => road.id == edgeId) with
        | none => acc
        | some road =>
          if 1 < road.geometry.length then
            (acc.1 ++ (if acc.1.isEmpty then densify road.geometry 5
                       else (densify road.geometry 5).drop 1),
             acc.2 + (match edgeFind st.edges edgeId with
                      | some edge => edge.length
                      | none => 0))
          else acc) acc e).1 = acc.1 ++ u := by
    intro acc e
    dsimp only
    cases hfind : netC10.roads.find? (fun road => road.id == e) with
    | none => exact ⟨[], by simp⟩
    | some road =>
      dsimp only
      by_cases hg : 1 < road.geometry.length
      · rw [if_pos hg]
        exact ⟨_, rfl⟩
      · rw [if_neg hg]
        exact ⟨[], (List.append_nil _).symm⟩
  obtain ⟨t, ht⟩ := foldl_fst_prefix _ hf route _
  rw [ht]
  dsimp only
  rw [show netC10.roads.find? (fun road => road.id == "r1") = some roadC10a from rfl]
  dsimp only
  rw [if_pos (show 1 < roadC10a.geometry.length from by decide)]
  rw [if_pos (show (List.isEmpty ([] : List Coord)) = true from rfl)]
  dsimp only
  rw [List.nil_append, List.length_append]
  have := densify_C10a_len
  omega

/-- The vehicle object pushed by one `addFacilityTraffic` iteration `i = 0`
(state `st1`, origin edge `outEdge`, route `route`, cursor `k2` at the
departure-time draw). -/
def facilityVehicle (st1 : SimState) (outEdge : SUMOEdge) (route : List String)
    (k2 : ℕ) : SUMOVehicle :=
  { id := VehicleId.facilityTrip 0, route := route,
    departTime := rngHalf k2 * 3600, arrivalTime := none,
    speed := max 10 (outEdge.speed * 0.6), emissions := 0, routeProgress := 0,
    routeCoordinates := (buildRouteGeometry st1 route).1, distanceTraveled := 0,
    currentEdgeProgress := 0, totalRouteLength := (buildRouteGeometry st1 route).2,
    line := (buildRouteGeometry st1 route).1,
    lineLength := polylineLength (buildRouteGeometry st1 route).1 / 1000 }

theorem addFacility_C10 (st : SimState)
    (hE : st.edges = [edgeOfRoad roadC10a, edgeOfRoad roadC10b])
    (hN : st.network = netC10)
    (c : Coord) (hnear : findNearbyEdges st c 0.2 = [edgeOfRoad roadC10a])
    (k k' : ℕ) (st' : SimState)
    (hroute : findSimpleRoute rngHalf 9 st "r1" "r2" (k + 2) =
      some (["r1", "r2", "r2"], st', k'))
    (hN' : st'.network = netC10) :
    addFacilityTraffic st c 1 rngHalf k 9 =
      some ({ st' with vehicles := st'.vehicles ++
        [facilityVehicle st' (edgeOfRoad roadC10a) ["r1", "r2", "r2"] k'] }, k' + 1) := by
  have hidx : jsFloorIdx (rngHalf k)
      ([edgeOfRoad roadC10a] : List SUMOEdge).length = 0 := by
    rw [show ([edgeOfRoad roadC10a] : List SUMOEdge).length = 1 from rfl,
      jsFloorIdx, show rngHalf k = 1/2 from rfl]
    norm_num
  rw [addFacilityTraffic, hnear]
  rw [if_neg (show ¬ ((List.isEmpty [edgeOfRoad roadC10a]) = true) from by decide)]
  rw [show ((1:ℤ).toNat) = 0 + 1 from rfl, addFacilityTrafficAux, hidx]
  rw [show ([edgeOfRoad roadC10a] : List SUMOEdge).get? 0 =
    some (edgeOfRoad roadC10a) from rfl]
  dsimp only
  rw [pickFar_C10 st hE hN (k + 1)]
  dsimp only
  rw [show (edgeOfRoad roadC10a).id = "r1" from rfl,
    show (edgeOfRoad roadC10b).id = "r2" from rfl]
  rw [show k + 1 + 1 = k + 2 from rfl, hroute]
  dsimp only
  rw [if_neg (Nat.not_lt.mpr (geomLen_C10 st' hN' ["r2", "r2"]))]
  rw [addFacilityTrafficAux, facilityVehicle]

theorem findRoute_cached (r : Rng) (fuel : ℕ) (st : SimState) (o d : String)
    (route : List String) (h : st.routeCache.lookup (o, d) = some route) (k : ℕ) :
    findSimpleRoute r (fuel + 1) st o d k = some (route, st, k) := by
  rw [findSimpleRoute, h]

theorem facilityGen_pop5 (st : SimState) (h : st.populationData = populationData5) :
    calculateFacilityTrafficGeneration st = 1 := by
  rw [calculateFacilityTrafficGeneration, h,
    show populationData5.density = 5 from rfl, jsRound]
  norm_num

/-- The C10 state after the first facility's route is cached. -/
def stC10r : SimState :=
  { stC10 with routeCache := (("r1", "r2"), ["r1", "r2", "r2"]) :: stC10.routeCache }

/-- The C10 state after the first facility's trip is injected. -/
def stC10A : SimState :=
  { stC10r with vehicles := stC10r.vehicles ++
      [facilityVehicle stC10r (edgeOfRoad roadC10a) ["r1", "r2", "r2"] 4] }

/-- The C10 state after the second facility's trip is injected (cache hit:
no new cache entry, and again id `facility_trip_0`). -/
def stC10B : SimState :=
  { stC10A with vehicles := stC10A.vehicles ++
      [facilityVehicle stC10A (edgeOfRoad roadC10a) ["r1", "r2", "r2"] 7] }

/-- Claim C10: `generateVehicleTrips` always produces pairwise-distinct ids
(`vehicle_i` for successive `i`), but each `addFacilityTraffic` call restarts
its numbering at `facility_trip_0`: on the C10 input — two facility markers
≈111 m apart, each within 200 m of the edge `r1` — `applyMarkerImpacts`
returns a state whose vehicle list holds two distinct vehicles with the same
id `facility_trip_0`. -/
theorem claim_C10_duplicate_ids :
    (∀ (st : SimState) (count : ℕ) (r : Rng) (k fuel : ℕ) (res : SimState × ℕ),
        generateVehicleTrips st count r k fuel = some res →
        (res.1.vehicles.map SUMOVehicle.id).Nodup) ∧
    (∃ st1 k1, applyMarkerImpacts stC10 [markerF1, markerF2] rngHalf 0 9 =
        some (st1, k1) ∧
      ∃ u v : SUMOVehicle, st1.vehicles = [u, v] ∧
        u.id = VehicleId.facilityTrip 0 ∧ v.id = VehicleId.facilityTrip 0 ∧
        ¬ (st1.vehicles.map SUMOVehicle.id).Nodup) := by
  constructor
  · intro st count r k fuel res h
    rw [generateVehicleTrips] at h
    obtain ⟨tail, htail, _, hnodup⟩ :=
      generateVehicleTripsAux_vehicles r fuel count 0 { st with vehicles := [] } k res h
    rw [htail, show ({ st with vehicles := [] } : SimState).vehicles = [] from rfl,
      List.nil_append]
    exact hnodup
  · have hadd1 : addFacilityTraffic stC10 ⟨0, 0⟩ 1 rngHalf 0 9 = some (stC10A, 5) :=
      addFacility_C10 stC10 stC10_edges rfl ⟨0, 0⟩
        (findNearby_C10_m1 stC10 stC10_edges rfl) 0 4 stC10r
        (findRoute_C10 stC10 stC10_edges rfl rfl 2) rfl
    have hcacheA : stC10A.routeCache.lookup ("r1", "r2") = some ["r1", "r2", "r2"] := rfl
    have hadd2 : addFacilityTraffic stC10A ⟨0.001, 0⟩ 1 rngHalf 5 9 = some (stC10B, 8) :=
      addFacility_C10 stC10A rfl rfl ⟨0.001, 0⟩
        (findNearby_C10_m2 stC10A rfl rfl) 5 7 stC10A
        (findRoute_cached rngHalf 8 stC10A "r1" "r2" ["r1", "r2", "r2"] hcacheA 7) rfl
    have hgen1 : calculateFacilityTrafficGeneration stC10 = 1 := facilityGen_pop5 stC10 rfl
    have hgenA : calculateFacilityTrafficGeneration stC10A = 1 :=
      facilityGen_pop5 stC10A rfl
    have hkey2 : ((toFixed6Key markerF2.coordinates.lng,
        toFixed6Key markerF2.coordinates.lat) : ℤ × ℤ) ∉
        [((toFixed6Key (0:ℝ), toFixed6Key (0:ℝ)) : ℤ × ℤ)] := by
      intro hmem
      rw [List.mem_singleton, Prod.mk.injEq] at hmem
      have h1 : toFixed6Key markerF2.coordinates.lng = 1000 := by
        rw [show markerF2.coordinates.lng = 0.001 from rfl, toFixed6Key, jsRound]
        norm_num
      have h2 : toFixed6Key (0:ℝ) = 0 := by
        rw [toFixed6Key, jsRound]
        norm_num
      rw [h1, h2] at hmem
      exact absurd hmem.1 (by norm_num)
    refine ⟨{ stC10B with affectedEdgesSet := [] }, 8, ?_,
      facilityVehicle stC10r (edgeOfRoad roadC10a) ["r1", "r2", "r2"] 4,
      facilityVehicle stC10A (edgeOfRoad roadC10a) ["r1", "r2", "r2"] 7,
      rfl, rfl, rfl, ?_⟩
    · rw [applyMarkerImpacts, applyMarkerImpactsAux]
      rw [if_neg (show ¬ (markerF1.type = "construction") from by decide)]
      rw [if_pos (show markerF1.type = "facility" from rfl)]
      dsimp only
      rw [if_neg (List.not_mem_nil ((toFixed6Key markerF1.coordinates.lng,
        toFixed6Key markerF1.coordinates.lat) : ℤ × ℤ))]
      rw [hgen1, show markerF1.coordinates = (⟨0, 0⟩ : Coord) from rfl, hadd1]
      dsimp only
      rw [applyMarkerImpactsAux]
      rw [if_neg (show ¬ (markerF2.type = "construction") from by decide)]
      rw [if_pos (show markerF2.type = "facility" from rfl)]
      dsimp only
      rw [if_neg hkey2]
      rw [hgenA, show markerF2.coordinates = (⟨0.001, 0⟩ : Coord) from rfl, hadd2]
      dsimp only
      rw [applyMarkerImpactsAux]
    · intro hnodup
      rw [show (({ stC10B with affectedEdgesSet := [] } : SimState).vehicles.map
        SUMOVehicle.id) = [VehicleId.facilityTrip 0, VehicleId.facilityTrip 0]
        from rfl] at hnodup
      simp at hnodup

theorem claim_C10_witness :
    generateVehicleTrips stC10 0 rngHalf 0 9 = some ({ stC10 with vehicles := [] }, 0) ∧
    ((({ stC10 with vehicles := [] } : SimState).vehicles.map SUMOVehicle.id).Nodup) := by
  have h : generateVehicleTrips stC10 0 rngHalf 0 9 =
      some ({ stC10 with vehicles := [] }, 0) := by
    rw [generateVehicleTrips, generateVehicleTripsAux]
  exact ⟨h, claim_C10_duplicate_ids.1 stC10 0 rngHalf 0 9 _ h⟩

/- ### Claim C8: snapshot headings -/

/-- The C8 vehicle: a single west-east segment at latitude 60°, halfway
travelled, with `lineLength` the (converted) haversine length of its line. -/
def vehC8 : SUMOVehicle :=
  { id := VehicleId.vehicle 0, route := ["r1"], departTime := 0, arrivalTime := none,
    speed := 30, emissions := 0, routeProgress := 0,
    routeCoordinates := [⟨0, 60⟩, ⟨90, 60⟩], distanceTraveled := 500,
    currentEdgeProgress := 0, totalRouteLength := 1000,
    line := [⟨0, 60⟩, ⟨90, 60⟩],
    lineLength := haversineDistance ⟨0, 60⟩ ⟨90, 60⟩ / 1000 }

theorem haversineA_C8 : haversineA ⟨0, 60⟩ ⟨90, 60⟩ = 1/8 := by
  rw [haversineA]
  rw [show ((60:ℝ) - 60) * π / 180 / 2 = 0 by ring, Real.sin_zero]
  rw [show ((90:ℝ) - 0) * π / 180 / 2 = π / 4 by ring, Real.sin_pi_div_four]
  rw [show (60:ℝ) * π / 180 = π / 3 by ring, Real.cos_pi_div_three]
  rw [show (Real.sqrt 2 / 2) ^ 2 = (Real.sqrt 2) ^ 2 / 4 by ring,
    Real.sq_sqrt (by norm_num : (0:ℝ) ≤ 2)]
  norm_num

theorem havC8_pos : 0 < haversineDistance ⟨0, 60⟩ ⟨90, 60⟩ := by
  have hx : (0:ℝ) < Real.sqrt (1 - haversineA ⟨0, 60⟩ ⟨90, 60⟩) := by
    rw [haversineA_C8]
    exact Real.sqrt_pos.mpr (by norm_num)
  have hy : (0:ℝ) < Real.sqrt (haversineA ⟨0, 60⟩ ⟨90, 60⟩) := by
    rw [haversineA_C8]
    exact Real.sqrt_pos.mpr (by norm_num)
  rw [haversineDistance, jsAtan2, if_pos hx]
  have harc := arctan_pos_of_pos (div_pos hy hx)
  nlinarith [harc]

theorem vehC8_p1 :
    pointAlongKm vehC8.line (vehC8.lineLength * (1/2)) = ⟨45, 60⟩ := by
  have hH := havC8_pos
  rw [pointAlongKm, show vehC8.line = [(⟨0, 60⟩ : Coord), ⟨90, 60⟩] from rfl,
    show vehC8.lineLength = haversineDistance ⟨0, 60⟩ ⟨90, 60⟩ / 1000 from rfl]
  rw [show haversineDistance ⟨0, 60⟩ ⟨90, 60⟩ / 1000 * (1/2) * 1000 =
    haversineDistance ⟨0, 60⟩ ⟨90, 60⟩ / 2 from by ring]
  rw [pointAtDistance, if_pos (by linarith)]
  rw [show haversineDistance ⟨0, 60⟩ ⟨90, 60⟩ / 2 / haversineDistance ⟨0, 60⟩ ⟨90, 60⟩ =
    1/2 from by field_simp; ring]
  rw [lerpCoord]
  norm_num

theorem vehC8_p2 :
    pointAlongKm vehC8.line (vehC8.lineLength * 0.501) = ⟨45.09, 60⟩ := by
  have hH := havC8_pos
  rw [pointAlongKm, show vehC8.line = [(⟨0, 60⟩ : Coord), ⟨90, 60⟩] from rfl,
    show vehC8.lineLength = haversineDistance ⟨0, 60⟩ ⟨90, 60⟩ / 1000 from rfl]
  rw [show haversineDistance ⟨0, 60⟩ ⟨90, 60⟩ / 1000 * 0.501 * 1000 =
    0.501 * haversineDistance ⟨0, 60⟩ ⟨90, 60⟩ from by ring]
  rw [pointAtDistance, if_pos (by nlinarith)]
  rw [show 0.501 * haversineDistance ⟨0, 60⟩ ⟨90, 60⟩ / haversineDistance ⟨0, 60⟩ ⟨90, 60⟩ =
    0.501 from by field_simp]
  rw [lerpCoord]
  norm_num

theorem vehC8_guard : ¬ (vehC8.line.isEmpty ∨ vehC8.lineLength = 0) := by
  rintro (h | h)
  · exact absurd h (by decide)
  · rw [show vehC8.lineLength = haversineDistance ⟨0, 60⟩ ⟨90, 60⟩ / 1000 from rfl] at h
    have := havC8_pos
    linarith [havC8_pos]

/-- Claim C8 counterexample: on the C8 vehicle the snapshot samples the
points (45, 60) and (45.09, 60), the emitted `atan2` heading is exactly 90,
but the great-circle bearing between those two points is strictly less than
90 (eastbound travel at latitude 60° bends towards the pole), so the emitted
heading does not equal the mandated great-circle bearing. -/
theorem claim_C8_counterexample :
    pointAlongKm vehC8.line
        (vehC8.lineLength * min 1 (vehC8.distanceTraveled / vehC8.totalRouteLength)) =
      ⟨45, 60⟩ ∧
    pointAlongKm vehC8.line
        (vehC8.lineLength *
          min (min 1 (vehC8.distanceTraveled / vehC8.totalRouteLength) + 0.001) 1) =
      ⟨45.09, 60⟩ ∧
    snapshotHeadingAtan2 vehC8 = 90 ∧
    turfBearing ⟨45, 60⟩ ⟨45.09, 60⟩ < 90 := by
  have hprog : min (1:ℝ) (vehC8.distanceTraveled / vehC8.totalRouteLength) = 1/2 := by
    rw [show vehC8.distanceTraveled = 500 from rfl,
      show vehC8.totalRouteLength = 1000 from rfl]
    norm_num
  have hmin : min ((1:ℝ)/2 + 0.001) 1 = 0.501 := by norm_num
  have hb : turfBearing ⟨45, 60⟩ ⟨45.09, 60⟩ < 90 := by
    rw [turfBearing]
    rw [show ((⟨45.09, 60⟩ : Coord).lng - (⟨45, 60⟩ : Coord).lng) = 0.09 from by norm_num]
    rw [show (60:ℝ) * π / 180 = π / 3 from by ring]
    have hπ := Real.pi_pos
    have hcosδ : cos ((0.09:ℝ) * π / 180) < 1 := by
      refine lt_of_le_of_ne (Real.cos_le_one _) ?_
      intro h
      rw [Real.cos_eq_one_iff_of_lt_of_lt (by nlinarith) (by nlinarith)] at h
      nlinarith
    have hs : 0 < sin (π / 3) :=
      Real.sin_pos_of_pos_of_lt_pi (by linarith) (by linarith)
    have hc : 0 < cos (π / 3) := by
      rw [Real.cos_pi_div_three]
      norm_num
    have hx : 0 < cos (π / 3) * sin (π / 3) -
        sin (π / 3) * cos (π / 3) * cos ((0.09:ℝ) * π / 180) := by
      nlinarith [mul_pos hc hs]
    rw [jsAtan2, if_pos hx]
    rw [div_lt_iff hπ]
    have harc := Real.arctan_lt_pi_div_two
      (sin ((0.09:ℝ) * π / 180) * cos (π / 3) /
        (cos (π / 3) * sin (π / 3) - sin (π / 3) * cos (π / 3) * cos ((0.09:ℝ) * π / 180)))
    nlinarith [harc]
  refine ⟨by rw [hprog]; exact vehC8_p1, by rw [hprog, hmin]; exact vehC8_p2, ?_, hb⟩
  rw [snapshotHeadingAtan2, calculateHeadingAtan2, if_neg vehC8_guard, hprog, hmin]
  rw [vehC8_p1, vehC8_p2]
  rw [show ((⟨45.09, 60⟩ : Coord).lng - (⟨45, 60⟩ : Coord).lng) = 0.09 from by norm_num,
    show ((⟨45.09, 60⟩ : Coord).lat - (⟨45, 60⟩ : Coord).lat) = 0 from by norm_num]
  rw [jsAtan2, if_neg (by norm_num), if_neg (by norm_num), if_pos (by norm_num)]
  have hπ := Real.pi_ne_zero
  field_simp
  ring

/-- Claim C8 (amended): with a nonempty line of nonzero length, the engine
version using turf `bearing` emits exactly the great-circle bearing between
the interpolated point and the point at `progress + 0.001` (clamped to 1),
while the sibling engine version emits the planar `atan2(Δlng, Δlat)` angle
on the same two points; the planar angle agrees with the great-circle
bearing on due-north segments (both are 0) but not in general (see the
counterexample). -/
theorem claim_C8_amended :
    (∀ (v : SUMOVehicle) (progress : ℝ),
        ¬ (v.line.isEmpty ∨ v.lineLength = 0) →
        calculateHeadingBearing v progress =
          turfBearing (pointAlongKm v.line (v.lineLength * progress))
            (pointAlongKm v.line (v.lineLength * min (progress + 0.001) 1)) ∧
        calculateHeadingAtan2 v progress =
          jsAtan2 ((pointAlongKm v.line (v.lineLength * min (progress + 0.001) 1)).lng -
              (pointAlongKm v.line (v.lineLength * progress)).lng)
            ((pointAlongKm v.line (v.lineLength * min (progress + 0.001) 1)).lat -
              (pointAlongKm v.line (v.lineLength * progress)).lat) * 180 / π) ∧
    (∀ p1 p2 : Coord, p1.lng = p2.lng → 0 < p2.lat - p1.lat → p2.lat - p1.lat < 180 →
        jsAtan2 (p2.lng - p1.lng) (p2.lat - p1.lat) * 180 / π = turfBearing p1 p2 ∧
        turfBearing p1 p2 = 0) := by
  constructor
  · intro v progress h
    exact ⟨by rw [calculateHeadingBearing, if_neg h],
      by rw [calculateHeadingAtan2, if_neg h]⟩
  · intro p1 p2 hlng hpos hlt
    have hπ := Real.pi_pos
    have hdlng : p2.lng - p1.lng = 0 := by rw [hlng, sub_self]
    have hturf : turfBearing p1 p2 = 0 := by
      rw [turfBearing, hdlng]
      rw [show (0:ℝ) * π / 180 = 0 from by ring, Real.sin_zero, Real.cos_zero, zero_mul,
        mul_one]
      have hxval : cos (p1.lat * π / 180) * sin (p2.lat * π / 180) -
          sin (p1.lat * π / 180) * cos (p2.lat * π / 180) =
          sin ((p2.lat - p1.lat) * π / 180) := by
        have hsub := Real.sin_sub (p2.lat * π / 180) (p1.lat * π / 180)
        rw [show (p2.lat - p1.lat) * π / 180 =
          p2.lat * π / 180 - p1.lat * π / 180 from by ring, hsub]
        ring
      rw [hxval, jsAtan2,
        if_pos (Real.sin_pos_of_pos_of_lt_pi (by positivity) (by nlinarith))]
      rw [zero_div, Real.arctan_zero, zero_mul, zero_div]
    refine ⟨?_, hturf⟩
    rw [hturf, hdlng, jsAtan2, if_pos hpos, zero_div, Real.arctan_zero, zero_mul, zero_div]

/-- The witness vehicle for C8's amended claim: unit-length due-north line. -/
def vehC8w : SUMOVehicle :=
  { id := VehicleId.vehicle 0, route := ["r1"], departTime := 0, arrivalTime := none,
    speed := 30, emissions := 0, routeProgress := 0,
    routeCoordinates := [⟨0, 0⟩, ⟨0, 1⟩], distanceTraveled := 0,
    currentEdgeProgress := 0, totalRouteLength := 1,
    line := [⟨0, 0⟩, ⟨0, 1⟩], lineLength := 1 }

theorem claim_C8_witness :
    (¬ (vehC8w.line.isEmpty ∨ vehC8w.lineLength = 0) ∧
      calculateHeadingBearing vehC8w 0 =
        turfBearing (pointAlongKm vehC8w.line (vehC8w.lineLength * 0))
          (pointAlongKm vehC8w.line (vehC8w.lineLength * min (0 + 0.001) 1)) ∧
      calculateHeadingAtan2 vehC8w 0 =
        jsAtan2 ((pointAlongKm vehC8w.line (vehC8w.lineLength * min (0 + 0.001) 1)).lng -
            (pointAlongKm vehC8w.line (vehC8w.lineLength * 0)).lng)
          ((pointAlongKm vehC8w.line (vehC8w.lineLength * min (0 + 0.001) 1)).lat -
            (pointAlongKm vehC8w.line (vehC8w.lineLength * 0)).lat) * 180 / π) ∧
    ((⟨0, 0⟩ : Coord).lng = (⟨0, 1⟩ : Coord).lng ∧
      0 < ((⟨0, 1⟩ : Coord).lat - (⟨0, 0⟩ : Coord).lat) ∧
      ((⟨0, 1⟩ : Coord).lat - (⟨0, 0⟩ : Coord).lat) < 180 ∧
      jsAtan2 ((⟨0, 1⟩ : Coord).lng - (⟨0, 0⟩ : Coord).lng)
          ((⟨0, 1⟩ : Coord).lat - (⟨0, 0⟩ : Coord).lat) * 180 / π =
        turfBearing ⟨0, 0⟩ ⟨0, 1⟩ ∧
      turfBearing ⟨0, 0⟩ ⟨0, 1⟩ = 0) := by
  have hg : ¬ (vehC8w.line.isEmpty ∨ vehC8w.lineLength = 0) := by
    rintro (h | h)
    · exact absurd h (by decide)
    · rw [show vehC8w.lineLength = 1 from rfl] at h
      norm_num at h
  obtain ⟨h1, h2⟩ := claim_C8_amended.1 vehC8w 0 hg
  obtain ⟨h3, h4⟩ := claim_C8_amended.2 ⟨0, 0⟩ ⟨0, 1⟩ rfl (by norm_num) (by norm_num)
  exact ⟨⟨hg, h1, h2⟩, rfl, by norm_num, by norm_num, h3, h4⟩

end

end MobilityTwin
